import Mathlib

/-! # SystemLogQueue (src/Common/SystemLogBase.cpp)

A shallow embedding of the asynchronous system-log queue: the bounded
buffer, the three logical offsets and the flush protocol
(`add`, `pop`, `notifyFlush`, `waitFlush`, `confirm`, `shutdown`).

`add`, `pop`, `notifyFlush`, `confirm` and `waitFlush` run their bodies under
the queue's mutex and `shutdown` is a single assignment, so a call is one
atomic step on the queue state; which statements run under the mutex is
modelled separately, on the statement sequences of the member functions. The
`uint64_t` counters are natural numbers, and every sum the code computes in
`uint64_t` is reduced modulo `2 ^ 64`.

The constructor and the two size getters of `DataTypeFixedString`
(src/DataTypes/DataTypeFixedString.h) are embedded as well.
-/

namespace DB

/-- The constant `DBMS_SYSTEM_LOG_QUEUE_SIZE` (SystemLogBase.cpp, line 36). -/
def DBMS_SYSTEM_LOG_QUEUE_SIZE : Nat := 1048576

/-- The number of values of `uint64_t`: sums of offsets wrap at this modulus. -/
def UINT64_MODULUS : Nat := 18446744073709551616

/-- The value `uint64_t(-1)` that `notifyFlush` returns on a shut-down queue. -/
def UINT64_MAX : Nat := 18446744073709551615

/-- Modelled from the spec: the member variables of `SystemLogQueue`, declared
in `SystemLogBase.h` (not among the sources); the fields are the ones the
member functions of SystemLogBase.cpp read and write, with the roles of the
spec's data model. -/
structure SystemLogQueue (LogElement : Type) where
  /-- The buffer `std::vector<LogElement> queue`. -/
  queue : List LogElement
  /-- Logical offset of the first buffered element. -/
  queue_front_index : Nat
  /-- A prepare-tables request is pending. -/
  is_force_prepare_tables : Bool
  /-- Highest offset anybody asked to flush. -/
  requested_flush_up_to : Nat
  /-- The offset published by the last `confirm`. -/
  flushed_up_to : Nat
  /-- The front index at which the last "queue is full" error was logged. -/
  logged_queue_full_at_index : Nat
  /-- The one-way shutdown flag. -/
  is_shutdown : Bool
deriving DecidableEq, Repr

/-- Modelled from the spec: the queue at construction, an empty buffer, all
offsets zero and both flags clear. The initial value of
`logged_queue_full_at_index` is declared in `SystemLogBase.h` and is a
parameter here. -/
def SystemLogQueue.initial (LogElement : Type) (logged : Nat) : SystemLogQueue LogElement :=
  { queue := []
    queue_front_index := 0
    is_force_prepare_tables := false
    requested_flush_up_to := 0
    flushed_up_to := 0
    logged_queue_full_at_index := logged
    is_shutdown := false }

/-- The two log lines `add` can emit (`LOG_ERROR` at line 107, `LOG_INFO` at
line 117). -/
inductive Diagnostic where
  /-- The error "Queue is full for system log ... at N", with N the front index. -/
  | queue_is_full (front : Nat)
  /-- The information "Queue is half full for system log ...". -/
  | queue_is_half_full
deriving DecidableEq, Repr

/-- What a call of `add` leaves behind: the queue, the calling thread's
`recursive_add_call` flag and the log lines emitted. `add` returns `void` and
throws nothing, so there is no error component. -/
structure AddResult (LogElement : Type) where
  /-- The queue after the call. -/
  state : SystemLogQueue LogElement
  /-- The thread-local flag after the call. -/
  recursive_add_call : Bool
  /-- The diagnostics emitted by the call, in order. -/
  log : List Diagnostic
deriving DecidableEq, Repr

/-- `SystemLogQueue::add` (lines 52-118). The first argument is the calling
thread's `recursive_add_call` on entry. -/
def SystemLogQueue.add {LogElement : Type} (recursive_add_call : Bool)
    (q : SystemLogQueue LogElement) (element : LogElement) : AddResult LogElement :=
  if recursive_add_call then
    -- line 57: a recursive call returns before the flag is touched
    { state := q, recursive_add_call := recursive_add_call, log := [] }
  -- lines 59-60: the flag is set, and SCOPE_EXIT clears it on every return below
  else if q.is_shutdown then
    { state := q, recursive_add_call := false, log := [] }
  else
    let queue_is_half_full : Bool := q.queue.length == DBMS_SYSTEM_LOG_QUEUE_SIZE / 2
    let q1 : SystemLogQueue LogElement :=
      if queue_is_half_full then
        let queue_end := (q.queue_front_index + q.queue.length) % UINT64_MODULUS
        if q.requested_flush_up_to < queue_end then
          { q with requested_flush_up_to := queue_end }
        else q
      else q
    if q1.queue.length ≥ DBMS_SYSTEM_LOG_QUEUE_SIZE then
      if q1.queue_front_index != q1.logged_queue_full_at_index then
        { state := { q1 with logged_queue_full_at_index := q1.queue_front_index }
          recursive_add_call := false
          log := [Diagnostic.queue_is_full q1.queue_front_index] }
      else
        { state := q1, recursive_add_call := false, log := [] }
    else
      { state := { q1 with queue := q1.queue ++ [element] }
        recursive_add_call := false
        log := if queue_is_half_full then [Diagnostic.queue_is_half_full] else [] }

/-- `SystemLogQueue::shutdown` (lines 120-126). -/
def SystemLogQueue.shutdown {LogElement : Type} (q : SystemLogQueue LogElement) :
    SystemLogQueue LogElement :=
  { q with is_shutdown := true }

/-- `SystemLogQueue::confirm` (lines 148-155). -/
def SystemLogQueue.confirm {LogElement : Type} (q : SystemLogQueue LogElement)
    (to_flush_end : Nat) : SystemLogQueue LogElement :=
  { q with flushed_up_to := to_flush_end, is_force_prepare_tables := false }

/-- The predicate `pop` waits on (line 165): a flush is requested beyond what
is flushed, or the queue is shut down, or a prepare-tables request is pending. -/
def SystemLogQueue.pop_wake_condition {LogElement : Type} (q : SystemLogQueue LogElement) : Bool :=
  decide (q.requested_flush_up_to > q.flushed_up_to) || q.is_shutdown || q.is_force_prepare_tables

/-- The out-parameters of `pop` together with the queue it leaves. -/
structure PopResult (LogElement : Type) where
  /-- The queue after the call. -/
  state : SystemLogQueue LogElement
  /-- The caller's vector after the call. -/
  output : List LogElement
  /-- The offset just past the last element handed out. -/
  to_flush_end : Nat
  /-- A prepare-tables request was pending. -/
  should_prepare_tables_anyway : Bool
  /-- The queue was shut down. -/
  exit_this_thread : Bool
deriving DecidableEq, Repr

/-- `SystemLogQueue::pop` (lines 157-179), from the moment its wait ends (by
the predicate or by the flush interval): `output` is the caller's vector on
entry, which is resized to zero and swapped with the buffer. -/
def SystemLogQueue.pop {LogElement : Type} (q : SystemLogQueue LogElement)
    (output : List LogElement) : PopResult LogElement :=
  let front := (q.queue_front_index + q.queue.length) % UINT64_MODULUS
  let resized := output.take 0
  { state := { q with queue_front_index := front, queue := resized }
    output := q.queue
    to_flush_end := front
    should_prepare_tables_anyway := q.is_force_prepare_tables
    exit_this_thread := q.is_shutdown }

/-- `SystemLogQueue::notifyFlush` (lines 181-203): the returned offset and the
queue after the call. -/
def SystemLogQueue.notifyFlush {LogElement : Type} (q : SystemLogQueue LogElement)
    (force : Bool) : Nat × SystemLogQueue LogElement :=
  if q.is_shutdown then
    (UINT64_MAX, q)
  else
    let this_thread_requested_offset := (q.queue_front_index + q.queue.length) % UINT64_MODULUS
    (this_thread_requested_offset,
      { q with
        is_force_prepare_tables := q.is_force_prepare_tables || force
        requested_flush_up_to := max q.requested_flush_up_to this_thread_requested_offset })

/-- One call on the queue. An `add` carries the calling thread's
`recursive_add_call` flag on entry, a `pop` the caller's vector on entry. -/
inductive Op (LogElement : Type) where
  /-- A call `add(element)`. -/
  | add (recursive_add_call : Bool) (element : LogElement)
  /-- A call `pop(output, ...)`. -/
  | pop (output : List LogElement)
  /-- A call `notifyFlush(force)`. -/
  | notifyFlush (force : Bool)
  /-- A call `confirm(to_flush_end)`. -/
  | confirm (to_flush_end : Nat)
  /-- A call `shutdown()`. -/
  | shutdown
deriving DecidableEq, Repr

/-- The queue after one call. -/
def SystemLogQueue.step {LogElement : Type} (q : SystemLogQueue LogElement) :
    Op LogElement → SystemLogQueue LogElement
  | Op.add recursive_add_call element => (q.add recursive_add_call element).state
  | Op.pop output => (q.pop output).state
  | Op.notifyFlush force => (q.notifyFlush force).2
  | Op.confirm to_flush_end => q.confirm to_flush_end
  | Op.shutdown => q.shutdown

/-- The queue after a sequence of calls, first call first. -/
def SystemLogQueue.run {LogElement : Type} (q : SystemLogQueue LogElement)
    (ops : List (Op LogElement)) : SystemLogQueue LogElement :=
  ops.foldl SystemLogQueue.step q

/-- An `add` is accepted when none of its three drop exits is taken: the
re-entrancy guard (line 57), the shutdown check (line 74) and the full-queue
check (line 93). -/
def SystemLogQueue.add_accepted {LogElement : Type} (recursive_add_call : Bool)
    (q : SystemLogQueue LogElement) : Bool :=
  !recursive_add_call && !q.is_shutdown && decide (q.queue.length < DBMS_SYSTEM_LOG_QUEUE_SIZE)

/-- A queue together with the record of a run: what the pops handed out and
which events were accepted. -/
structure History (LogElement : Type) where
  /-- The queue. -/
  state : SystemLogQueue LogElement
  /-- The batches returned by the pops so far, oldest first. -/
  batches : List (List LogElement)
  /-- The `to_flush_end` values returned by the pops so far, oldest first. -/
  flush_ends : List Nat
  /-- The events whose `add` was accepted so far, oldest first. -/
  accepted : List LogElement
deriving DecidableEq, Repr

/-- The record of a run that starts at `q`. -/
def History.start {LogElement : Type} (q : SystemLogQueue LogElement) : History LogElement :=
  { state := q, batches := [], flush_ends := [], accepted := [] }

/-- One call, recorded. -/
def History.step {LogElement : Type} (h : History LogElement) (op : Op LogElement) :
    History LogElement :=
  match op with
  | Op.add recursive_add_call element =>
      { h with
        state := h.state.step op
        accepted :=
          if h.state.add_accepted recursive_add_call then h.accepted ++ [element]
          else h.accepted }
  | Op.pop output =>
      { h with
        state := h.state.step op
        batches := h.batches ++ [(h.state.pop output).output]
        flush_ends := h.flush_ends ++ [(h.state.pop output).to_flush_end] }
  | _ => { h with state := h.state.step op }

/-- A sequence of calls, recorded. -/
def History.run {LogElement : Type} (h : History LogElement) (ops : List (Op LogElement)) :
    History LogElement :=
  ops.foldl History.step h

/-- Whether a call is a `pop`. -/
def Op.is_pop {LogElement : Type} : Op LogElement → Bool
  | Op.pop _ => true
  | _ => false

/-- Whether a call is an `add` or a `notifyFlush`. -/
def Op.is_add_or_notifyFlush {LogElement : Type} : Op LogElement → Bool
  | Op.add _ _ => true
  | Op.notifyFlush _ => true
  | _ => false

/-- The drain loop's discipline on a sequence of calls that continues the
recorded run `h`: every `confirm` gets the `to_flush_end` of an earlier `pop`. -/
def History.confirms_follow_pops {LogElement : Type} :
    History LogElement → List (Op LogElement) → Bool
  | _, [] => true
  | h, op :: ops =>
    (match op with
      | Op.confirm to_flush_end => decide (to_flush_end ∈ h.flush_ends)
      | _ => true)
    && History.confirms_follow_pops (h.step op) ops

/-- The calls `add(e)` for the events of a list, each made with the
re-entrancy flag clear. -/
def adds {LogElement : Type} (elements : List LogElement) : List (Op LogElement) :=
  elements.map (Op.add false)

/-- The `ErrorCodes` the sources declare (SystemLogBase.cpp, line 31;
DataTypeFixedString.h, line 18). -/
inductive ErrorCode where
  /-- The code of the exception thrown by `waitFlush`. -/
  | TIMEOUT_EXCEEDED
  /-- The code of the exceptions thrown by the `DataTypeFixedString` constructor. -/
  | ARGUMENT_OUT_OF_BOUND
deriving DecidableEq, Repr

/-- The exception of `waitFlush` (line 143): its code and the timeout, in
seconds, that its message reports. -/
structure Exception where
  /-- The error code. -/
  code : ErrorCode
  /-- The number of seconds printed in the message. -/
  timeout_seconds : Nat
deriving DecidableEq, Repr

/-- What a bounded wait on a condition variable ends with. -/
structure WaitResult (State : Type) where
  /-- The value `wait_for` returns: the predicate, as last evaluated. -/
  result : Bool
  /-- The wait lasted until the deadline. -/
  timed_out : Bool
  /-- The state the waiter holds the lock on when `wait_for` returns. -/
  state : State
deriving DecidableEq, Repr

/-- `std::condition_variable::wait_for(lock, rel_time, pred)`, which is
`while (!pred()) if (wait_until(lock, deadline) == timeout) return pred(); return true;`.
The waiter evaluates the predicate on the state on entry, then on the state it
finds at each wake-up before the deadline (`wakes`, in order), and a last
time on the state it finds when the deadline has passed (`at_timeout`). -/
def wait_for {State : Type} (pred : State → Bool) :
    State → List State → State → WaitResult State
  | s, [], at_timeout =>
    if pred s then { result := true, timed_out := false, state := s }
    else { result := pred at_timeout, timed_out := true, state := at_timeout }
  | s, w :: wakes, at_timeout =>
    if pred s then { result := true, timed_out := false, state := s }
    else wait_for pred w wakes at_timeout

/-- The predicate `waitFlush` waits on (line 138). -/
def SystemLogQueue.waitFlush_condition {LogElement : Type} (q : SystemLogQueue LogElement)
    (this_thread_requested_offset_ : Nat) : Bool :=
  decide (q.flushed_up_to ≥ this_thread_requested_offset_) && !q.is_force_prepare_tables

/-- What a call of `waitFlush` ends with. -/
structure WaitFlushResult (LogElement : Type) where
  /-- Normal return, or the exception thrown. -/
  outcome : Except Exception Unit
  /-- The wait lasted the whole `timeout_seconds`. -/
  timed_out : Bool
  /-- The queue when the call ends. -/
  state : SystemLogQueue LogElement

/-- `SystemLogQueue::waitFlush` (lines 128-146). `q` is the queue on entry;
`wakes` and `at_timeout` are the queues the waiter finds at its wake-ups
within the 180 seconds and at the deadline, as left by the other threads. -/
def SystemLogQueue.waitFlush {LogElement : Type} (q : SystemLogQueue LogElement)
    (this_thread_requested_offset_ : Nat)
    (wakes : List (SystemLogQueue LogElement)) (at_timeout : SystemLogQueue LogElement) :
    WaitFlushResult LogElement :=
  let timeout_seconds : Nat := 180
  let waited := wait_for (fun s => s.waitFlush_condition this_thread_requested_offset_)
    q wakes at_timeout
  if !waited.result then
    { outcome := Except.error
        { code := ErrorCode.TIMEOUT_EXCEEDED, timeout_seconds := timeout_seconds }
      timed_out := waited.timed_out
      state := waited.state }
  else
    { outcome := Except.ok (), timed_out := waited.timed_out, state := waited.state }

/-- The bookkeeping that holds along a run from the initial queue in which
every `confirm` gets the `to_flush_end` of an earlier `pop`: the front index
counts the events handed out, modulo `2 ^ 64`, and every `to_flush_end` and
the flushed offset are such a count taken at some earlier moment. -/
structure History.Consistent {LogElement : Type} (h : History LogElement) : Prop where
  /-- The batches followed by the buffer are the accepted events. -/
  fifo : h.batches.flatten ++ h.state.queue = h.accepted
  /-- The front index is the number of events handed out. -/
  front : h.state.queue_front_index = h.batches.flatten.length % UINT64_MODULUS
  /-- Every `to_flush_end` is a number of events handed out. -/
  ends : ∀ x ∈ h.flush_ends, ∃ n, n ≤ h.batches.flatten.length ∧ x = n % UINT64_MODULUS
  /-- The flushed offset is a number of events handed out. -/
  flushed : ∃ n, n ≤ h.batches.flatten.length ∧ h.state.flushed_up_to = n % UINT64_MODULUS

/-- `SystemLogQueue::add` (lines 52-118) with its two logging calls spelled
out. A logging call runs on the calling thread and may call back into the
queue, so `logger` is given the thread's `recursive_add_call` at the moment of
the call, the line to log and the queue, and returns the queue it leaves. The
thread-local flag is set at line 59 and cleared by the `SCOPE_EXIT` of line 60
when the function is left. -/
def SystemLogQueue.add_with_logger {LogElement : Type}
    (logger : Bool → Diagnostic → SystemLogQueue LogElement → SystemLogQueue LogElement)
    (recursive_add_call : Bool) (q : SystemLogQueue LogElement) (element : LogElement) :
    AddResult LogElement :=
  if recursive_add_call then
    -- line 57: returns before the flag is touched and before SCOPE_EXIT is armed
    { state := q, recursive_add_call := recursive_add_call, log := [] }
  else
    -- line 59
    let recursive_add_call : Bool := true
    -- line 60: what SCOPE_EXIT stores into the flag on every return below
    let at_scope_exit : Bool := false
    if q.is_shutdown then
      { state := q, recursive_add_call := at_scope_exit, log := [] }
    else
      let queue_is_half_full : Bool := q.queue.length == DBMS_SYSTEM_LOG_QUEUE_SIZE / 2
      let q1 : SystemLogQueue LogElement :=
        if queue_is_half_full then
          let queue_end := (q.queue_front_index + q.queue.length) % UINT64_MODULUS
          if q.requested_flush_up_to < queue_end then
            { q with requested_flush_up_to := queue_end }
          else q
        else q
      if q1.queue.length ≥ DBMS_SYSTEM_LOG_QUEUE_SIZE then
        if q1.queue_front_index != q1.logged_queue_full_at_index then
          let q2 := { q1 with logged_queue_full_at_index := q1.queue_front_index }
          -- line 107: LOG_ERROR
          { state := logger recursive_add_call (Diagnostic.queue_is_full q2.queue_front_index) q2
            recursive_add_call := at_scope_exit
            log := [Diagnostic.queue_is_full q2.queue_front_index] }
        else
          { state := q1, recursive_add_call := at_scope_exit, log := [] }
      else
        let q2 := { q1 with queue := q1.queue ++ [element] }
        if queue_is_half_full then
          -- line 117: LOG_INFO
          { state := logger recursive_add_call Diagnostic.queue_is_half_full q2
            recursive_add_call := at_scope_exit
            log := [Diagnostic.queue_is_half_full] }
        else
          { state := q2, recursive_add_call := at_scope_exit, log := [] }

/-- Whether a log line is the "Queue is full" error. -/
def Diagnostic.is_queue_is_full : Diagnostic → Bool
  | Diagnostic.queue_is_full _ => true
  | Diagnostic.queue_is_half_full => false

/-- The lines `add` logs during one call on the queue; the other calls are
listed with none. -/
def SystemLogQueue.step_log {LogElement : Type} (q : SystemLogQueue LogElement) :
    Op LogElement → List Diagnostic
  | Op.add recursive_add_call element => (q.add recursive_add_call element).log
  | _ => []

/-- The lines `add` logs during a sequence of calls, in order. -/
def SystemLogQueue.run_log {LogElement : Type} :
    SystemLogQueue LogElement → List (Op LogElement) → List Diagnostic
  | _, [] => []
  | q, op :: ops => q.step_log op ++ SystemLogQueue.run_log (q.step op) ops

/-- The member variables of the queue that its functions write. -/
inductive Member where
  /-- The buffer. -/
  | queue
  /-- The front index. -/
  | queue_front_index
  /-- The prepare-tables flag. -/
  | is_force_prepare_tables
  /-- The requested offset. -/
  | requested_flush_up_to
  /-- The flushed offset. -/
  | flushed_up_to
  /-- The front index of the last "queue is full" error. -/
  | logged_queue_full_at_index
  /-- The shutdown flag. -/
  | is_shutdown
deriving DecidableEq, Repr

/-- The statements of a member function that matter for the locking
discipline. -/
inductive Action where
  /-- A `std::unique_lock` or `std::lock_guard` on `mutex` is constructed. -/
  | lock
  /-- The lock is released: `lock.unlock()`, or the end of the lock's scope. -/
  | unlock
  /-- A call `flush_event.wait_for(lock, ...)`, which returns with the mutex held. -/
  | wait
  /-- An assignment to a member variable. -/
  | write (member : Member)
  /-- A call `flush_event.notify_all()`. -/
  | notify_all
  /-- A logging call. -/
  | log
deriving DecidableEq, Repr

/-- The statements of `SystemLogQueue::add` (lines 52-118) along each of its
paths: the two early returns, then the three ways through the half-full block
(lines 77-91) followed by each of the ways through the rest (lines 93-117). -/
def add_paths : List (List Action) :=
  [[], [Action.lock, Action.unlock]]
    ++ ([[], [Action.notify_all],
          [Action.write Member.requested_flush_up_to, Action.notify_all]].map fun half =>
        [Action.lock] ++ half
          ++ [Action.write Member.logged_queue_full_at_index, Action.unlock, Action.log])
    ++ ([[], [Action.notify_all],
          [Action.write Member.requested_flush_up_to, Action.notify_all]].map fun half =>
        [Action.lock] ++ half ++ [Action.unlock])
    ++ ([[], [Action.notify_all],
          [Action.write Member.requested_flush_up_to, Action.notify_all]].map fun half =>
        [Action.lock] ++ half ++ [Action.write Member.queue, Action.unlock])
    ++ ([[], [Action.notify_all],
          [Action.write Member.requested_flush_up_to, Action.notify_all]].map fun half =>
        [Action.lock] ++ half ++ [Action.write Member.queue, Action.unlock, Action.log])

/-- The statements of `SystemLogQueue::shutdown` (lines 120-126). -/
def shutdown_path : List Action :=
  [Action.write Member.is_shutdown, Action.notify_all]

/-- The statements of `SystemLogQueue::waitFlush` (lines 128-146). -/
def waitFlush_path : List Action :=
  [Action.lock, Action.wait, Action.unlock]

/-- The statements of `SystemLogQueue::confirm` (lines 148-155). -/
def confirm_path : List Action :=
  [Action.lock, Action.write Member.flushed_up_to, Action.write Member.is_force_prepare_tables,
    Action.notify_all, Action.unlock]

/-- The statements of `SystemLogQueue::pop` (lines 157-179). -/
def pop_path : List Action :=
  [Action.lock, Action.wait, Action.write Member.queue_front_index, Action.write Member.queue,
    Action.unlock]

/-- The statements of `SystemLogQueue::notifyFlush` (lines 181-203) along its
two paths. -/
def notifyFlush_paths : List (List Action) :=
  [[Action.lock, Action.unlock],
   [Action.lock, Action.write Member.is_force_prepare_tables,
    Action.write Member.requested_flush_up_to, Action.notify_all, Action.unlock, Action.log]]

/-- Whether every assignment of a path is made while the path holds the
mutex; `held` tells whether it holds it at the start. -/
def writes_under_mutex : Bool → List Action → Bool
  | _, [] => true
  | _, Action.lock :: rest => writes_under_mutex true rest
  | _, Action.unlock :: rest => writes_under_mutex false rest
  | held, Action.write _ :: rest => held && writes_under_mutex held rest
  | held, Action.wait :: rest => writes_under_mutex held rest
  | held, Action.notify_all :: rest => writes_under_mutex held rest
  | held, Action.log :: rest => writes_under_mutex held rest

/-- The constant `MAX_FIXEDSTRING_SIZE` (DataTypeFixedString.h, line 7). -/
def MAX_FIXEDSTRING_SIZE : Nat := 0xFFFFFF

/-- The exception of the `DataTypeFixedString` constructor (lines 36 and 38):
its code and its message. -/
structure ArgumentException where
  /-- The error code. -/
  code : ErrorCode
  /-- The message. -/
  message : String
deriving DecidableEq, Repr

/-- The class `DataTypeFixedString` (DataTypeFixedString.h, lines 22-74): its
one data member, the `size_t n`. -/
structure DataTypeFixedString where
  /-- The length of the strings of the type. -/
  n : Nat
deriving DecidableEq, Repr

set_option linter.dupNamespace false

/-- The constructor `DataTypeFixedString::DataTypeFixedString(size_t n_)`
(lines 33-39): the object, or the exception thrown. -/
def DataTypeFixedString.DataTypeFixedString (n_ : Nat) :
    Except ArgumentException DB.DataTypeFixedString :=
  let n := n_
  if n == 0 then
    Except.error
      { code := ErrorCode.ARGUMENT_OUT_OF_BOUND, message := "FixedString size must be positive" }
  else if n > MAX_FIXEDSTRING_SIZE then
    Except.error
      { code := ErrorCode.ARGUMENT_OUT_OF_BOUND, message := "FixedString size is too large" }
  else
    Except.ok { n := n }

/-- `DataTypeFixedString::getN` (lines 46-49). -/
def DataTypeFixedString.getN (type : DB.DataTypeFixedString) : Nat :=
  type.n

/-- `DataTypeFixedString::getSizeOfValueInMemory` (line 65). -/
def DataTypeFixedString.getSizeOfValueInMemory (type : DB.DataTypeFixedString) : Nat :=
  type.n

/-- The drain loop on a sequence of calls that continues the recorded run `h`:
every `confirm` gets the `to_flush_end` returned by the latest `pop`. -/
def History.confirms_follow_latest_pop {LogElement : Type} :
    History LogElement → List (Op LogElement) → Bool
  | _, [] => true
  | h, op :: ops =>
    (match op with
      | Op.confirm to_flush_end => decide (h.flush_ends.getLast? = some to_flush_end)
      | _ => true)
    && History.confirms_follow_latest_pop (h.step op) ops

/-! # Theorems -/

/-! ## The queue state of a recorded run -/

theorem History.step_state {LogElement : Type} (h : History LogElement) (op : Op LogElement) :
    (h.step op).state = h.state.step op := by
  cases op <;> rfl

theorem History.run_state {LogElement : Type} (ops : List (Op LogElement))
    (h : History LogElement) : (h.run ops).state = h.state.run ops := by
  induction ops generalizing h with
  | nil => rfl
  | cons op ops ih =>
    simp only [History.run, SystemLogQueue.run, List.foldl_cons] at ih ⊢
    rw [ih, History.step_state]

/-! ## FIFO order -/

/-- The buffer after an `add`: the element is appended exactly when the call
is accepted. -/
theorem SystemLogQueue.add_queue {LogElement : Type} (flag : Bool)
    (q : SystemLogQueue LogElement) (e : LogElement) :
    (q.add flag e).state.queue =
      if q.add_accepted flag then q.queue ++ [e] else q.queue := by
  unfold SystemLogQueue.add SystemLogQueue.add_accepted
  cases flag <;> cases hs : q.is_shutdown <;> simp
  by_cases hfull : DBMS_SYSTEM_LOG_QUEUE_SIZE ≤ q.queue.length
  · have hnot : ¬ q.queue.length < DBMS_SYSTEM_LOG_QUEUE_SIZE := by omega
    split_ifs <;> simp_all
  · have hlt : q.queue.length < DBMS_SYSTEM_LOG_QUEUE_SIZE := by omega
    split_ifs <;> simp_all

/-- One recorded call keeps the batches followed by the buffer equal to the
accepted events. -/
theorem History.step_fifo {LogElement : Type} (h : History LogElement) (op : Op LogElement)
    (inv : h.batches.flatten ++ h.state.queue = h.accepted) :
    (h.step op).batches.flatten ++ (h.step op).state.queue = (h.step op).accepted := by
  cases op with
  | add flag e =>
    simp only [History.step, SystemLogQueue.step, SystemLogQueue.add_queue]
    split_ifs
    · rw [← inv, List.append_assoc]
    · exact inv
  | pop output =>
    simp [History.step, SystemLogQueue.step, SystemLogQueue.pop, ← inv]
  | notifyFlush force =>
    simp only [History.step, SystemLogQueue.step, SystemLogQueue.notifyFlush]
    split_ifs <;> exact inv
  | confirm x => exact inv
  | shutdown => exact inv

theorem History.run_fifo {LogElement : Type} (ops : List (Op LogElement))
    (h : History LogElement) (inv : h.batches.flatten ++ h.state.queue = h.accepted) :
    (h.run ops).batches.flatten ++ (h.run ops).state.queue = (h.run ops).accepted := by
  induction ops generalizing h with
  | nil => exact inv
  | cons op ops ih => exact ih (h.step op) (History.step_fifo h op inv)

/-- C1 (FIFO order): for every sequence of add, pop, notifyFlush, confirm and
shutdown calls on an initially empty queue, the batches returned by the
successive pops, concatenated, followed by the buffer left at the end, are
exactly the events whose add was accepted, in the order they were added. -/
theorem C1_fifo_order {LogElement : Type} (logged : Nat) (ops : List (Op LogElement)) :
    ((History.start (SystemLogQueue.initial LogElement logged)).run ops).batches.flatten
        ++ ((History.start (SystemLogQueue.initial LogElement logged)).run ops).state.queue
      = ((History.start (SystemLogQueue.initial LogElement logged)).run ops).accepted :=
  History.run_fifo ops _ rfl

/-! ## Flush completion -/

/-- An `add` leaves the front index alone. -/
theorem SystemLogQueue.add_front {LogElement : Type} (flag : Bool)
    (q : SystemLogQueue LogElement) (e : LogElement) :
    (q.add flag e).state.queue_front_index = q.queue_front_index := by
  unfold SystemLogQueue.add
  simp only []
  split_ifs <;> rfl

/-- A `notifyFlush` leaves the buffer and the front index alone. -/
theorem SystemLogQueue.notifyFlush_frame {LogElement : Type} (q : SystemLogQueue LogElement)
    (force : Bool) :
    (q.notifyFlush force).2.queue = q.queue
      ∧ (q.notifyFlush force).2.queue_front_index = q.queue_front_index := by
  unfold SystemLogQueue.notifyFlush
  split_ifs <;> exact ⟨rfl, rfl⟩

/-- Calls of `add` and `notifyFlush` only: the front index stays, and the
buffer and the accepted events grow by the same events. -/
theorem History.run_add_notifyFlush {LogElement : Type} (ops : List (Op LogElement))
    (h : History LogElement) (hops : ∀ op ∈ ops, op.is_add_or_notifyFlush = true) :
    (h.run ops).state.queue_front_index = h.state.queue_front_index
      ∧ ∃ extra, (h.run ops).state.queue = h.state.queue ++ extra
          ∧ (h.run ops).accepted = h.accepted ++ extra := by
  induction ops generalizing h with
  | nil => exact ⟨rfl, [], by simp [History.run], by simp [History.run]⟩
  | cons op ops ih =>
    have hrest : ∀ o ∈ ops, o.is_add_or_notifyFlush = true :=
      fun o ho => hops o (List.mem_cons_of_mem _ ho)
    obtain ⟨hfront, extra, hq, hacc⟩ := ih (h.step op) hrest
    have hop := hops op (List.mem_cons_self _ _)
    have hrun : h.run (op :: ops) = (h.step op).run ops := rfl
    rw [hrun, hfront]
    cases op with
    | add flag e =>
      refine ⟨SystemLogQueue.add_front flag h.state e, ?_⟩
      rw [hq, hacc]
      simp only [History.step, SystemLogQueue.step, SystemLogQueue.add_queue]
      split_ifs
      · exact ⟨e :: extra, by simp, by simp⟩
      · exact ⟨extra, rfl, rfl⟩
    | notifyFlush force =>
      refine ⟨(SystemLogQueue.notifyFlush_frame h.state force).2, extra, ?_, ?_⟩
      · rw [hq]
        simp only [History.step, SystemLogQueue.step]
        rw [(SystemLogQueue.notifyFlush_frame h.state force).1]
      · rw [hacc]; rfl
    | pop output => simp [Op.is_add_or_notifyFlush] at hop
    | confirm x => simp [Op.is_add_or_notifyFlush] at hop
    | shutdown => simp [Op.is_add_or_notifyFlush] at hop

/-- When the predicate holds on entry, `wait_for` returns true at once. -/
theorem wait_for_of_entry {State : Type} (pred : State → Bool) (s : State)
    (wakes : List State) (at_timeout : State) (hp : pred s = true) :
    wait_for pred s wakes at_timeout = { result := true, timed_out := false, state := s } := by
  cases wakes <;> simp [wait_for, hp]

/-- When its condition holds on entry, `waitFlush` returns normally, at once
and on the queue it was called on. -/
theorem SystemLogQueue.waitFlush_of_condition {LogElement : Type}
    (q : SystemLogQueue LogElement) (offset : Nat)
    (wakes : List (SystemLogQueue LogElement)) (at_timeout : SystemLogQueue LogElement)
    (hc : q.waitFlush_condition offset = true) :
    (q.waitFlush offset wakes at_timeout).outcome = Except.ok ()
      ∧ (q.waitFlush offset wakes at_timeout).timed_out = false
      ∧ (q.waitFlush offset wakes at_timeout).state = q := by
  unfold SystemLogQueue.waitFlush
  simp only []
  rw [wait_for_of_entry (fun s => s.waitFlush_condition offset) q wakes at_timeout hc]
  simp

/-- C2 (flush completion): on a queue that is not shut down, let
notifyFlush(false) return O; after any further add and notifyFlush calls the
next pop returns to_flush_end >= O, equal to O when no add was accepted in
between, and right after confirm(to_flush_end) the condition of waitFlush(O)
holds, so waitFlush(O) returns without error. The offset pop computes is
assumed to fit into uint64_t. -/
theorem C2_flush_completion {LogElement : Type} (q : SystemLogQueue LogElement)
    (ops : List (Op LogElement)) (output : List LogElement)
    (wakes : List (SystemLogQueue LogElement)) (at_timeout : SystemLogQueue LogElement)
    (hshut : q.is_shutdown = false)
    (hops : ∀ op ∈ ops, op.is_add_or_notifyFlush = true)
    (hfit : ((History.start (q.notifyFlush false).2).run ops).state.queue_front_index
        + ((History.start (q.notifyFlush false).2).run ops).state.queue.length
        < UINT64_MODULUS) :
    (q.notifyFlush false).1
        ≤ (((History.start (q.notifyFlush false).2).run ops).state.pop output).to_flush_end
      ∧ (((History.start (q.notifyFlush false).2).run ops).accepted = [] →
          (((History.start (q.notifyFlush false).2).run ops).state.pop output).to_flush_end
            = (q.notifyFlush false).1)
      ∧ ((((History.start (q.notifyFlush false).2).run ops).state.pop output).state.confirm
          (((History.start (q.notifyFlush false).2).run ops).state.pop output).to_flush_end
          ).waitFlush_condition (q.notifyFlush false).1 = true
      ∧ (((((History.start (q.notifyFlush false).2).run ops).state.pop output).state.confirm
          (((History.start (q.notifyFlush false).2).run ops).state.pop output).to_flush_end
          ).waitFlush (q.notifyFlush false).1 wakes at_timeout).outcome = Except.ok () := by
  obtain ⟨hfront, extra, hq, hacc⟩ :=
    History.run_add_notifyFlush ops (History.start (q.notifyFlush false).2) hops
  have hframe := SystemLogQueue.notifyFlush_frame q false
  generalize (History.start (q.notifyFlush false).2).run ops = H at hfront hq hacc hfit ⊢
  change H.state.queue_front_index = (q.notifyFlush false).2.queue_front_index at hfront
  change H.state.queue = (q.notifyFlush false).2.queue ++ extra at hq
  change H.accepted = [] ++ extra at hacc
  rw [hframe.2] at hfront
  rw [hframe.1] at hq
  rw [List.nil_append] at hacc
  have hO : (q.notifyFlush false).1 = (q.queue_front_index + q.queue.length) % UINT64_MODULUS := by
    simp [SystemLogQueue.notifyFlush, hshut]
  have hend : (H.state.pop output).to_flush_end
      = q.queue_front_index + q.queue.length + extra.length := by
    simp only [SystemLogQueue.pop]
    rw [Nat.mod_eq_of_lt hfit, hfront, hq, List.length_append, Nat.add_assoc]
  have hsmall : q.queue_front_index + q.queue.length + extra.length < UINT64_MODULUS := by
    rw [hfront, hq, List.length_append] at hfit
    omega
  have hle : (q.notifyFlush false).1 ≤ (H.state.pop output).to_flush_end := by
    rw [hO, hend, Nat.mod_eq_of_lt (by omega)]
    omega
  have hcond : ((H.state.pop output).state.confirm
      (H.state.pop output).to_flush_end).waitFlush_condition (q.notifyFlush false).1 = true := by
    simp only [SystemLogQueue.waitFlush_condition, SystemLogQueue.confirm]
    simpa using hle
  refine ⟨hle, ?_, hcond, ?_⟩
  · intro hnone
    rw [hnone] at hacc
    rw [hO, hend, ← hacc, Nat.mod_eq_of_lt (by omega)]
    simp
  · exact (SystemLogQueue.waitFlush_of_condition _ _ wakes at_timeout hcond).1

/-! ## Wait coverage -/

theorem History.run_append {LogElement : Type} (h : History LogElement)
    (a b : List (Op LogElement)) : h.run (a ++ b) = (h.run a).run b := by
  simp [History.run, List.foldl_append]

theorem History.confirms_follow_pops_append {LogElement : Type} (a b : List (Op LogElement))
    (h : History LogElement) :
    h.confirms_follow_pops (a ++ b)
      = (h.confirms_follow_pops a && (h.run a).confirms_follow_pops b) := by
  induction a generalizing h with
  | nil => simp [History.confirms_follow_pops, History.run]
  | cons op a ih =>
    have hrun : h.run (op :: a) = (h.step op).run a := rfl
    rw [List.cons_append, hrun]
    simp only [History.confirms_follow_pops]
    rw [ih, Bool.and_assoc]

/-- The accepted events of a run only grow at the end. -/
theorem History.run_accepted_grows {LogElement : Type} (ops : List (Op LogElement))
    (h : History LogElement) : ∃ extra, (h.run ops).accepted = h.accepted ++ extra := by
  induction ops generalizing h with
  | nil => exact ⟨[], by simp [History.run]⟩
  | cons op ops ih =>
    obtain ⟨extra, hex⟩ := ih (h.step op)
    have hrun : h.run (op :: ops) = (h.step op).run ops := rfl
    rw [hrun, hex]
    cases op with
    | add flag e =>
      simp only [History.step]
      split_ifs
      · exact ⟨e :: extra, by simp⟩
      · exact ⟨extra, rfl⟩
    | pop output => exact ⟨extra, rfl⟩
    | notifyFlush force => exact ⟨extra, rfl⟩
    | confirm x => exact ⟨extra, rfl⟩
    | shutdown => exact ⟨extra, rfl⟩

/-- A recorded `pop` appends the buffer to what was handed out. -/
theorem History.step_pop_flatten {LogElement : Type} (h : History LogElement)
    (output : List LogElement) :
    (h.step (Op.pop output)).batches.flatten = h.batches.flatten ++ h.state.queue := by
  simp [History.step, SystemLogQueue.pop]

theorem History.start_consistent {LogElement : Type} (logged : Nat) :
    (History.start (SystemLogQueue.initial LogElement logged)).Consistent where
  fifo := rfl
  front := rfl
  ends := by simp [History.start]
  flushed := ⟨0, Nat.le_refl _, rfl⟩

/-- One call keeps the bookkeeping, a `confirm` provided its argument is the
`to_flush_end` of an earlier `pop`. -/
theorem History.step_consistent {LogElement : Type} (h : History LogElement)
    (op : Op LogElement) (inv : h.Consistent)
    (hconfirm : ∀ x, op = Op.confirm x → x ∈ h.flush_ends) :
    (h.step op).Consistent := by
  refine ⟨History.step_fifo h op inv.fifo, ?_, ?_, ?_⟩
  · cases op with
    | add flag e =>
      simp only [History.step, SystemLogQueue.step, SystemLogQueue.add_front]
      exact inv.front
    | pop output =>
      simp only [History.step, SystemLogQueue.step, SystemLogQueue.pop, inv.front]
      simp
    | notifyFlush force =>
      simp only [History.step, SystemLogQueue.step, (SystemLogQueue.notifyFlush_frame _ _).2]
      exact inv.front
    | confirm x => exact inv.front
    | shutdown => exact inv.front
  · cases op with
    | add flag e => exact inv.ends
    | pop output =>
      intro x hx
      simp only [History.step, List.mem_append, List.mem_singleton] at hx
      rcases hx with hx | hx
      · obtain ⟨n, hn, hxn⟩ := inv.ends x hx
        exact ⟨n, by rw [History.step_pop_flatten, List.length_append]; omega, hxn⟩
      · refine ⟨h.batches.flatten.length + h.state.queue.length,
          by rw [History.step_pop_flatten, List.length_append], ?_⟩
        rw [hx]
        simp only [SystemLogQueue.pop, inv.front]
        simp
    | notifyFlush force => exact inv.ends
    | confirm x => exact inv.ends
    | shutdown => exact inv.ends
  · cases op with
    | add flag e =>
      obtain ⟨n, hn, hf⟩ := inv.flushed
      refine ⟨n, hn, ?_⟩
      rw [← hf]
      simp only [History.step, SystemLogQueue.step, SystemLogQueue.add]
      split_ifs <;> rfl
    | pop output =>
      obtain ⟨n, hn, hf⟩ := inv.flushed
      exact ⟨n, by rw [History.step_pop_flatten, List.length_append]; omega, hf⟩
    | notifyFlush force =>
      obtain ⟨n, hn, hf⟩ := inv.flushed
      refine ⟨n, hn, ?_⟩
      rw [← hf]
      simp only [History.step, SystemLogQueue.step, SystemLogQueue.notifyFlush]
      split_ifs <;> rfl
    | confirm x => exact inv.ends x (hconfirm x rfl)
    | shutdown => exact inv.flushed

theorem History.run_consistent {LogElement : Type} (ops : List (Op LogElement))
    (h : History LogElement) (inv : h.Consistent)
    (hdisc : h.confirms_follow_pops ops = true) : (h.run ops).Consistent := by
  induction ops generalizing h with
  | nil => exact inv
  | cons op ops ih =>
    simp only [History.confirms_follow_pops, Bool.and_eq_true] at hdisc
    refine ih (h.step op) (History.step_consistent h op inv ?_) hdisc.2
    intro x hx
    subst hx
    simpa using hdisc.1

/-- The offset `notifyFlush` returns is at least the number of events accepted
so far, as long as that number fits into `uint64_t`. -/
theorem History.notifyFlush_covers {LogElement : Type} (h : History LogElement)
    (inv : h.Consistent) (force : Bool) (hfit : h.accepted.length < UINT64_MODULUS) :
    h.accepted.length ≤ (h.state.notifyFlush force).1 := by
  have hlen : h.accepted.length = h.batches.flatten.length + h.state.queue.length := by
    rw [← inv.fifo, List.length_append]
  unfold SystemLogQueue.notifyFlush
  split_ifs
  · simp only [UINT64_MAX]
    simp only [UINT64_MODULUS] at hfit
    omega
  · simp only [inv.front, Nat.mod_add_mod]
    rw [← hlen, Nat.mod_eq_of_lt hfit]

/-- C3 (wait coverage): in a run from the empty queue with all counters zero
in which each confirm gets the to_flush_end of an earlier pop, if notifyFlush
returned the offset O (the sentinel or not) and at a later point
flushed_up_to >= O, then the events accepted before that notifyFlush have all
been handed out by pops: they are the first events of the concatenated
batches. The number of events accepted in the run is assumed to fit into
uint64_t. -/
theorem C3_wait_coverage {LogElement : Type} (logged : Nat)
    (before after : List (Op LogElement)) (force : Bool)
    (hdisc : (History.start (SystemLogQueue.initial LogElement logged)).confirms_follow_pops
      (before ++ Op.notifyFlush force :: after) = true)
    (hfit : ((History.start (SystemLogQueue.initial LogElement logged)).run
      (before ++ Op.notifyFlush force :: after)).accepted.length < UINT64_MODULUS)
    (hflushed : (((History.start (SystemLogQueue.initial LogElement logged)).run
        before).state.notifyFlush force).1
      ≤ ((History.start (SystemLogQueue.initial LogElement logged)).run
        (before ++ Op.notifyFlush force :: after)).state.flushed_up_to) :
    ∃ rest, ((History.start (SystemLogQueue.initial LogElement logged)).run
        (before ++ Op.notifyFlush force :: after)).batches.flatten
      = ((History.start (SystemLogQueue.initial LogElement logged)).run before).accepted
        ++ rest := by
  have inv2 := History.run_consistent _ _ (History.start_consistent logged) hdisc
  rw [History.confirms_follow_pops_append, Bool.and_eq_true] at hdisc
  have inv1 := History.run_consistent _ _ (History.start_consistent logged) hdisc.1
  rw [History.run_append] at hfit hflushed inv2 ⊢
  generalize (History.start (SystemLogQueue.initial LogElement logged)).run before = h1
    at hfit hflushed inv1 inv2 ⊢
  obtain ⟨extra, hgrow⟩ := History.run_accepted_grows (Op.notifyFlush force :: after) h1
  generalize h1.run (Op.notifyFlush force :: after) = h2 at hfit hflushed inv2 hgrow ⊢
  have hlen1 : h1.accepted.length ≤ h2.accepted.length := by
    rw [hgrow, List.length_append]
    omega
  have hcover := History.notifyFlush_covers h1 inv1 force (by omega)
  obtain ⟨n, hn, hfl⟩ := inv2.flushed
  have hlen2 : h2.batches.flatten.length ≤ h2.accepted.length := by
    rw [← inv2.fifo, List.length_append]
    omega
  rw [hfl, Nat.mod_eq_of_lt (by omega)] at hflushed
  have hshort : h1.accepted.length ≤ h2.batches.flatten.length := by omega
  have hsplit : h1.accepted ++ extra = h2.batches.flatten ++ h2.state.queue := by
    rw [← hgrow, inv2.fifo]
  rcases List.append_eq_append_iff.mp hsplit with ⟨mid, hmid, _⟩ | ⟨mid, hmid, _⟩
  · exact ⟨mid, hmid⟩
  · have hnil : mid = [] := by
      have := congrArg List.length hmid
      rw [List.length_append] at this
      exact List.length_eq_zero.mp (by omega)
    rw [hnil, List.append_nil] at hmid
    exact ⟨[], by rw [hmid, List.append_nil]⟩

/-- A run with one event accepted before the notifyFlush, then pop and confirm. -/
theorem C3_wait_coverage_witness :
    ∃ rest, ((History.start (SystemLogQueue.initial Nat 0)).run
        ([Op.add false 7] ++ Op.notifyFlush false :: [Op.pop [], Op.confirm 1])).batches.flatten
      = ((History.start (SystemLogQueue.initial Nat 0)).run [Op.add false 7]).accepted ++ rest :=
  C3_wait_coverage 0 [Op.add false 7] [Op.pop [], Op.confirm 1] false
    (by decide) (by decide) (by decide)

/-- A queue holding one event, then an accepted add and a forcing notifyFlush. -/
theorem C2_flush_completion_witness :
    (((SystemLogQueue.initial Nat 0).add false 7).state.notifyFlush false).1
        ≤ (((History.start
            (((SystemLogQueue.initial Nat 0).add false 7).state.notifyFlush false).2).run
            [Op.add false 8, Op.notifyFlush true]).state.pop []).to_flush_end :=
  (C2_flush_completion ((SystemLogQueue.initial Nat 0).add false 7).state
    [Op.add false 8, Op.notifyFlush true] [] [] (SystemLogQueue.initial Nat 0)
    (by decide) (by decide) (by decide)).1

/-! ## Offset monotonicity -/

/-- C4, as stated, fails: two pops handed out to_flush_end 1 and 2, and the
confirms arrive in the order 2, 1; the second confirm lowers flushed_up_to
from 2 to 1. -/
theorem C4_counterexample :
    ((SystemLogQueue.initial Nat 0).run
        [Op.add false 7, Op.pop [], Op.add false 8, Op.pop [], Op.confirm 2]).flushed_up_to = 2
      ∧ (((SystemLogQueue.initial Nat 0).run
        [Op.add false 7, Op.pop [], Op.add false 8, Op.pop [], Op.confirm 2]).step
          (Op.confirm 1)).flushed_up_to = 1 := by
  decide

/-- A call does not lower the front index and the requested offset, as long as
the sum `pop` computes fits into `uint64_t`. -/
theorem SystemLogQueue.step_front_requested {LogElement : Type}
    (q : SystemLogQueue LogElement) (op : Op LogElement)
    (hfit : q.queue_front_index + q.queue.length < UINT64_MODULUS) :
    q.queue_front_index ≤ (q.step op).queue_front_index
      ∧ q.requested_flush_up_to ≤ (q.step op).requested_flush_up_to := by
  cases op with
  | add flag e =>
    simp only [SystemLogQueue.step, SystemLogQueue.add]
    split_ifs <;> simp <;> omega
  | pop output =>
    simp only [SystemLogQueue.step, SystemLogQueue.pop, Nat.mod_eq_of_lt hfit]
    simp
  | notifyFlush force =>
    simp only [SystemLogQueue.step, SystemLogQueue.notifyFlush]
    split_ifs <;> simp
  | confirm x => exact ⟨Nat.le_refl _, Nat.le_refl _⟩
  | shutdown => exact ⟨Nat.le_refl _, Nat.le_refl _⟩

/-- The flushed offset after a call: the argument for a `confirm`, the old
value for every other call. -/
theorem SystemLogQueue.step_flushed {LogElement : Type}
    (q : SystemLogQueue LogElement) (op : Op LogElement) :
    (q.step op).flushed_up_to =
      (match op with
        | Op.confirm to_flush_end => to_flush_end
        | _ => q.flushed_up_to) := by
  cases op with
  | add flag e =>
    simp only [SystemLogQueue.step, SystemLogQueue.add]
    split_ifs <;> rfl
  | pop output => rfl
  | notifyFlush force =>
    simp only [SystemLogQueue.step, SystemLogQueue.notifyFlush]
    split_ifs <;> rfl
  | confirm x => rfl
  | shutdown => rfl

theorem History.confirms_follow_latest_pop_append {LogElement : Type}
    (a b : List (Op LogElement)) (h : History LogElement) :
    h.confirms_follow_latest_pop (a ++ b)
      = (h.confirms_follow_latest_pop a && (h.run a).confirms_follow_latest_pop b) := by
  induction a generalizing h with
  | nil => simp [History.confirms_follow_latest_pop, History.run]
  | cons op a ih =>
    have hrun : h.run (op :: a) = (h.step op).run a := rfl
    rw [List.cons_append, hrun]
    simp only [History.confirms_follow_latest_pop]
    rw [ih, Bool.and_assoc]

/-- A run that follows the drain loop confirms only offsets that a `pop`
returned. -/
theorem History.confirms_follow_pops_of_latest {LogElement : Type}
    (ops : List (Op LogElement)) (h : History LogElement)
    (hloop : h.confirms_follow_latest_pop ops = true) :
    h.confirms_follow_pops ops = true := by
  induction ops generalizing h with
  | nil => rfl
  | cons op ops ih =>
    simp only [History.confirms_follow_latest_pop, Bool.and_eq_true] at hloop
    simp only [History.confirms_follow_pops, Bool.and_eq_true]
    refine ⟨?_, ih (h.step op) hloop.2⟩
    cases op with
    | confirm x =>
      have hlast : h.flush_ends.getLast? = some x := by simpa using hloop.1
      simpa using List.mem_of_getLast?_eq_some hlast
    | add flag e => rfl
    | pop output => rfl
    | notifyFlush force => rfl
    | shutdown => rfl

/-- The `to_flush_end` of the latest `pop` is the front index: one call keeps
this. -/
theorem History.step_latest_end {LogElement : Type} (h : History LogElement)
    (op : Op LogElement)
    (inv : ∀ x, h.flush_ends.getLast? = some x → x = h.state.queue_front_index) :
    ∀ x, (h.step op).flush_ends.getLast? = some x →
      x = (h.step op).state.queue_front_index := by
  cases op with
  | add flag e =>
    intro x hx
    simp only [History.step, SystemLogQueue.step, SystemLogQueue.add_front]
    exact inv x hx
  | pop output =>
    intro x hx
    simp only [History.step, List.getLast?_concat, Option.some.injEq] at hx
    rw [← hx]
    rfl
  | notifyFlush force =>
    intro x hx
    simp only [History.step, SystemLogQueue.step, (SystemLogQueue.notifyFlush_frame _ _).2]
    exact inv x hx
  | confirm y => exact inv
  | shutdown => exact inv

theorem History.run_latest_end {LogElement : Type} (ops : List (Op LogElement))
    (h : History LogElement)
    (inv : ∀ x, h.flush_ends.getLast? = some x → x = h.state.queue_front_index) :
    ∀ x, (h.run ops).flush_ends.getLast? = some x →
      x = (h.run ops).state.queue_front_index := by
  induction ops generalizing h with
  | nil => exact inv
  | cons op ops ih => exact ih (h.step op) (History.step_latest_end h op inv)

/-- C4, amended (offset monotonicity): every call of add, pop, notifyFlush,
confirm or shutdown leaves front_index and requested_flush_up_to at least as
large as before, as long as front_index + buffer.length fits into uint64_t.
flushed_up_to is changed only by confirm, which sets it to its argument: a
call lowers it exactly when it is a confirm whose argument is below the
current flushed_up_to. In a run from the initial queue that follows the drain
loop (each confirm gets the to_flush_end returned by the latest pop) and
accepts fewer than 2^64 events, no call lowers any of the three counters. -/
theorem C4_offsets_monotone {LogElement : Type} (q : SystemLogQueue LogElement)
    (op : Op LogElement) (logged : Nat) (before : List (Op LogElement)) (next : Op LogElement)
    (hfit : q.queue_front_index + q.queue.length < UINT64_MODULUS)
    (hloop : (History.start (SystemLogQueue.initial LogElement logged)).confirms_follow_latest_pop
      (before ++ [next]) = true)
    (hfit_run : ((History.start (SystemLogQueue.initial LogElement logged)).run
      (before ++ [next])).accepted.length < UINT64_MODULUS) :
    q.queue_front_index ≤ (q.step op).queue_front_index
      ∧ q.requested_flush_up_to ≤ (q.step op).requested_flush_up_to
      ∧ (q.step op).flushed_up_to =
          (match op with
            | Op.confirm to_flush_end => to_flush_end
            | _ => q.flushed_up_to)
      ∧ ((q.step op).flushed_up_to < q.flushed_up_to
          ↔ ∃ x, op = Op.confirm x ∧ x < q.flushed_up_to)
      ∧ ((SystemLogQueue.initial LogElement logged).run before).queue_front_index
          ≤ (((SystemLogQueue.initial LogElement logged).run before).step next).queue_front_index
      ∧ ((SystemLogQueue.initial LogElement logged).run before).requested_flush_up_to
          ≤ (((SystemLogQueue.initial LogElement logged).run before).step
              next).requested_flush_up_to
      ∧ ((SystemLogQueue.initial LogElement logged).run before).flushed_up_to
          ≤ (((SystemLogQueue.initial LogElement logged).run before).step next).flushed_up_to := by
  have hstep := SystemLogQueue.step_front_requested q op hfit
  have hflushed := SystemLogQueue.step_flushed q op
  refine ⟨hstep.1, hstep.2, hflushed, ?_, ?_⟩
  · rw [hflushed]
    cases op with
    | confirm x =>
      constructor
      · intro hlt
        exact ⟨x, rfl, hlt⟩
      · rintro ⟨y, hy, hlt⟩
        cases hy
        exact hlt
    | add flag e => simp
    | pop output => simp
    | notifyFlush force => simp
    | shutdown => simp
  · rw [History.confirms_follow_latest_pop_append, Bool.and_eq_true] at hloop
    have inv := History.run_consistent before _ (History.start_consistent logged)
      (History.confirms_follow_pops_of_latest before _ hloop.1)
    have hlatest := History.run_latest_end before
      (History.start (SystemLogQueue.initial LogElement logged)) (by simp [History.start])
    have hstate := History.run_state before
      (History.start (SystemLogQueue.initial LogElement logged))
    change _ = (SystemLogQueue.initial LogElement logged).run before at hstate
    rw [← hstate]
    rw [History.run_append] at hfit_run
    obtain ⟨extra, hgrow⟩ := History.run_accepted_grows [next]
      ((History.start (SystemLogQueue.initial LogElement logged)).run before)
    rw [hgrow, List.length_append] at hfit_run
    have hnext := hloop.2
    generalize (History.start (SystemLogQueue.initial LogElement logged)).run before = h
      at inv hlatest hfit_run hnext ⊢
    have hlen : h.accepted.length = h.batches.flatten.length + h.state.queue.length := by
      rw [← inv.fifo, List.length_append]
    have hfront : h.state.queue_front_index = h.batches.flatten.length := by
      rw [inv.front, Nat.mod_eq_of_lt (by omega)]
    obtain ⟨n, hn, hfl⟩ := inv.flushed
    rw [Nat.mod_eq_of_lt (by omega)] at hfl
    have hmono := SystemLogQueue.step_front_requested h.state next (by omega)
    refine ⟨hmono.1, hmono.2, ?_⟩
    rw [SystemLogQueue.step_flushed]
    cases next with
    | confirm x =>
      simp only [History.confirms_follow_latest_pop, Bool.and_true, decide_eq_true_eq] at hnext
      have hx := hlatest x hnext
      simp only []
      omega
    | add flag e => exact Nat.le_refl _
    | pop output => exact Nat.le_refl _
    | notifyFlush force => exact Nat.le_refl _
    | shutdown => exact Nat.le_refl _

/-- A queue holding one event that is popped, and two rounds of the drain loop
whose second confirm is the next call. -/
theorem C4_offsets_monotone_witness :
    ((SystemLogQueue.initial Nat 0).run
        [Op.add false 7, Op.pop [], Op.confirm 1, Op.add false 8, Op.pop []]).flushed_up_to
      ≤ (((SystemLogQueue.initial Nat 0).run
          [Op.add false 7, Op.pop [], Op.confirm 1, Op.add false 8, Op.pop []]).step
            (Op.confirm 2)).flushed_up_to :=
  (C4_offsets_monotone ((SystemLogQueue.initial Nat 0).run [Op.add false 7]) (Op.pop []) 0
    [Op.add false 7, Op.pop [], Op.confirm 1, Op.add false 8, Op.pop []] (Op.confirm 2)
    (by decide) (by decide) (by decide)).2.2.2.2.2.2

/-! ## waitFlush -/

/-- The value of `wait_for`: the predicate held at one of the evaluations. -/
theorem wait_for_result {State : Type} (pred : State → Bool) (wakes : List State)
    (s at_timeout : State) :
    (wait_for pred s wakes at_timeout).result = true
      ↔ ∃ t ∈ s :: (wakes ++ [at_timeout]), pred t = true := by
  induction wakes generalizing s with
  | nil =>
    unfold wait_for
    by_cases hp : pred s = true <;> simp [hp]
  | cons w wakes ih =>
    unfold wait_for
    by_cases hp : pred s = true
    · simp [hp]
    · simp only [hp, Bool.false_eq_true, if_false, ih w]
      simp [hp]

/-- The state `wait_for` returns on is one of those it evaluated the
predicate on. -/
theorem wait_for_state {State : Type} (pred : State → Bool) (wakes : List State)
    (s at_timeout : State) :
    (wait_for pred s wakes at_timeout).state ∈ s :: (wakes ++ [at_timeout]) := by
  induction wakes generalizing s with
  | nil =>
    unfold wait_for
    by_cases hp : pred s = true <;> simp [hp]
  | cons w wakes ih =>
    unfold wait_for
    by_cases hp : pred s = true
    · simp [hp]
    · simp only [hp, Bool.false_eq_true, if_false]
      exact List.mem_cons_of_mem _ (ih w)

/-- A false result of `wait_for` comes at the deadline. -/
theorem wait_for_false_timed_out {State : Type} (pred : State → Bool) (wakes : List State)
    (s at_timeout : State) (hr : (wait_for pred s wakes at_timeout).result = false) :
    (wait_for pred s wakes at_timeout).timed_out = true := by
  induction wakes generalizing s with
  | nil =>
    unfold wait_for at hr ⊢
    by_cases hp : pred s = true <;> simp_all
  | cons w wakes ih =>
    unfold wait_for at hr ⊢
    by_cases hp : pred s = true
    · simp_all
    · simp only [hp, Bool.false_eq_true, if_false] at hr ⊢
      exact ih w hr

/-- On a state nobody changes, `wait_for` with a false predicate sleeps until
the deadline and returns false. -/
theorem wait_for_static_false {State : Type} (pred : State → Bool) (n : Nat) (s : State)
    (hp : pred s = false) :
    wait_for pred s (List.replicate n s) s = { result := false, timed_out := true, state := s } := by
  induction n with
  | zero => simp [wait_for, hp]
  | succ n ih => simp [List.replicate_succ, wait_for, hp, ih]

/-- The outcome of `waitFlush` in terms of the value of its `wait_for`. -/
theorem SystemLogQueue.waitFlush_outcome {LogElement : Type} (q : SystemLogQueue LogElement)
    (offset : Nat) (wakes : List (SystemLogQueue LogElement))
    (at_timeout : SystemLogQueue LogElement) :
    (q.waitFlush offset wakes at_timeout).outcome
      = if (wait_for (fun s => s.waitFlush_condition offset) q wakes at_timeout).result
        then Except.ok ()
        else Except.error { code := ErrorCode.TIMEOUT_EXCEEDED, timeout_seconds := 180 } := by
  unfold SystemLogQueue.waitFlush
  simp only []
  cases hr : (wait_for (fun s => s.waitFlush_condition offset) q wakes at_timeout).result <;>
    simp

/-- On a queue nobody changes whose condition is false, `waitFlush` sleeps
until the deadline, throws, and leaves the queue as it was. -/
theorem SystemLogQueue.waitFlush_static_false {LogElement : Type}
    (q : SystemLogQueue LogElement) (offset n : Nat)
    (hc : q.waitFlush_condition offset = false) :
    (q.waitFlush offset (List.replicate n q) q).outcome
        = Except.error { code := ErrorCode.TIMEOUT_EXCEEDED, timeout_seconds := 180 }
      ∧ (q.waitFlush offset (List.replicate n q) q).timed_out = true
      ∧ (q.waitFlush offset (List.replicate n q) q).state = q := by
  unfold SystemLogQueue.waitFlush
  simp only []
  rw [wait_for_static_false (fun s => s.waitFlush_condition offset) n q hc]
  simp

/-- C5 (waitFlush): waitFlush(offset) returns normally if and only if the
condition (flushed_up_to >= offset and force_prepare_tables = false) holds at
one of the moments the waiter looks at the queue within the bound (on entry,
at a wake-up, at the deadline); any other outcome is the TIMEOUT_EXCEEDED
exception for 180 seconds, thrown at the deadline. On a queue on which no
other operation runs it throws exactly when flushed_up_to < offset or
force_prepare_tables is set, and in either outcome the queue is left as it
was; in general the queue at the end is one of those the other threads left. -/
theorem C5_waitFlush {LogElement : Type} (q : SystemLogQueue LogElement) (offset : Nat)
    (wakes : List (SystemLogQueue LogElement)) (at_timeout : SystemLogQueue LogElement)
    (n : Nat) :
    ((q.waitFlush offset wakes at_timeout).outcome = Except.ok ()
        ↔ ∃ s ∈ q :: (wakes ++ [at_timeout]),
            offset ≤ s.flushed_up_to ∧ s.is_force_prepare_tables = false)
      ∧ ((q.waitFlush offset wakes at_timeout).outcome = Except.ok ()
          ∨ ((q.waitFlush offset wakes at_timeout).outcome
                = Except.error { code := ErrorCode.TIMEOUT_EXCEEDED, timeout_seconds := 180 }
              ∧ (q.waitFlush offset wakes at_timeout).timed_out = true))
      ∧ (q.waitFlush offset wakes at_timeout).state ∈ q :: (wakes ++ [at_timeout])
      ∧ ((q.waitFlush offset (List.replicate n q) q).outcome
            = Except.error { code := ErrorCode.TIMEOUT_EXCEEDED, timeout_seconds := 180 }
          ↔ q.flushed_up_to < offset ∨ q.is_force_prepare_tables = true)
      ∧ ((q.waitFlush offset (List.replicate n q) q).outcome = Except.ok ()
          ↔ offset ≤ q.flushed_up_to ∧ q.is_force_prepare_tables = false)
      ∧ (q.waitFlush offset (List.replicate n q) q).state = q := by
  have hcond : ∀ s : SystemLogQueue LogElement, s.waitFlush_condition offset = true
      ↔ offset ≤ s.flushed_up_to ∧ s.is_force_prepare_tables = false := by
    intro s
    simp [SystemLogQueue.waitFlush_condition]
  refine ⟨?_, ?_, ?_, ?_, ?_, ?_⟩
  · rw [SystemLogQueue.waitFlush_outcome]
    have hres := wait_for_result (fun s => s.waitFlush_condition offset) wakes q at_timeout
    cases hr : (wait_for (fun s => s.waitFlush_condition offset) q wakes at_timeout).result
    · constructor
      · intro h
        simp at h
      · rintro ⟨s, hs, hc⟩
        rw [hres.mpr ⟨s, hs, (hcond s).mpr hc⟩] at hr
        simp at hr
    · obtain ⟨s, hs, hc⟩ := hres.mp hr
      constructor
      · intro _
        exact ⟨s, hs, (hcond s).mp hc⟩
      · intro _
        simp
  · rw [SystemLogQueue.waitFlush_outcome]
    cases hr : (wait_for (fun s => s.waitFlush_condition offset) q wakes at_timeout).result
    · refine Or.inr ⟨by simp, ?_⟩
      have := wait_for_false_timed_out _ wakes q at_timeout hr
      unfold SystemLogQueue.waitFlush
      simp only [hr]
      simpa using this
    · exact Or.inl (by simp)
  · unfold SystemLogQueue.waitFlush
    have := wait_for_state (fun s => s.waitFlush_condition offset) wakes q at_timeout
    simp only []
    split_ifs <;> exact this
  · cases hc : q.waitFlush_condition offset
    · rw [(SystemLogQueue.waitFlush_static_false q offset n hc).1]
      have hn : ¬ (offset ≤ q.flushed_up_to ∧ q.is_force_prepare_tables = false) := by
        intro h
        rw [(hcond q).mpr h] at hc
        exact absurd hc (by simp)
      simp only [true_iff]
      by_cases hle : offset ≤ q.flushed_up_to
      · right
        cases hf : q.is_force_prepare_tables
        · exact absurd ⟨hle, hf⟩ hn
        · rfl
      · left
        omega
    · rw [(SystemLogQueue.waitFlush_of_condition q offset _ q hc).1]
      have h := (hcond q).mp hc
      simp only [reduceCtorEq, false_iff, not_or, Nat.not_lt]
      exact ⟨h.1, by simp [h.2]⟩
  · cases hc : q.waitFlush_condition offset
    · rw [(SystemLogQueue.waitFlush_static_false q offset n hc).1]
      simp only [reduceCtorEq, false_iff]
      intro h
      rw [(hcond q).mpr h] at hc
      exact absurd hc (by simp)
    · rw [(SystemLogQueue.waitFlush_of_condition q offset _ q hc).1]
      simp only [true_iff]
      exact (hcond q).mp hc
  · cases hc : q.waitFlush_condition offset
    · exact (SystemLogQueue.waitFlush_static_false q offset n hc).2.2
    · exact (SystemLogQueue.waitFlush_of_condition q offset _ q hc).2.2

/-- C6, as stated, fails: on the shut-down initial queue notifyFlush returns
the sentinel, and waitFlush of the sentinel, with wake-ups at which the queue
is still the same, sleeps until the deadline and throws TIMEOUT_EXCEEDED. -/
theorem C6_counterexample :
    (SystemLogQueue.initial Nat 0).shutdown.is_shutdown = true
      ∧ ((SystemLogQueue.initial Nat 0).shutdown.notifyFlush false).1 = UINT64_MAX
      ∧ ((SystemLogQueue.initial Nat 0).shutdown.waitFlush UINT64_MAX
            [(SystemLogQueue.initial Nat 0).shutdown, (SystemLogQueue.initial Nat 0).shutdown]
            (SystemLogQueue.initial Nat 0).shutdown).outcome
          = Except.error { code := ErrorCode.TIMEOUT_EXCEEDED, timeout_seconds := 180 }
      ∧ ((SystemLogQueue.initial Nat 0).shutdown.waitFlush UINT64_MAX
            [(SystemLogQueue.initial Nat 0).shutdown, (SystemLogQueue.initial Nat 0).shutdown]
            (SystemLogQueue.initial Nat 0).shutdown).timed_out = true := by
  refine ⟨rfl, rfl, ?_, ?_⟩
  · exact (SystemLogQueue.waitFlush_static_false _ UINT64_MAX 2 (by decide)).1
  · exact (SystemLogQueue.waitFlush_static_false _ UINT64_MAX 2 (by decide)).2.1

/-- The shutdown flag does not enter the predicate `wait_for` evaluates for
`waitFlush`. -/
theorem wait_for_shutdown {LogElement : Type} (offset : Nat)
    (wakes : List (SystemLogQueue LogElement)) (q at_timeout : SystemLogQueue LogElement) :
    (wait_for (fun s => s.waitFlush_condition offset) q.shutdown
          (wakes.map SystemLogQueue.shutdown) at_timeout.shutdown).result
        = (wait_for (fun s => s.waitFlush_condition offset) q wakes at_timeout).result
      ∧ (wait_for (fun s => s.waitFlush_condition offset) q.shutdown
          (wakes.map SystemLogQueue.shutdown) at_timeout.shutdown).timed_out
        = (wait_for (fun s => s.waitFlush_condition offset) q wakes at_timeout).timed_out := by
  have hc : ∀ s : SystemLogQueue LogElement,
      s.shutdown.waitFlush_condition offset = s.waitFlush_condition offset := fun _ => rfl
  induction wakes generalizing q with
  | nil =>
    simp only [List.map_nil, wait_for, hc]
    split_ifs <;> exact ⟨rfl, rfl⟩
  | cons w wakes ih =>
    simp only [List.map_cons, wait_for, hc]
    split_ifs
    · exact ⟨rfl, rfl⟩
    · exact ih w

/-- C6, amended (shutdown and waiters): the shutdown flag has no influence on
waitFlush: with the flag set in every queue the waiter sees, the outcome and
whether the wait lasts until the deadline are the same as without it. On a
shut-down queue that no call changes any more, waitFlush(offset) returns at
once when flushed_up_to >= offset and force_prepare_tables is false, and
otherwise it sleeps the whole 180 seconds and throws TIMEOUT_EXCEEDED. -/
theorem C6_waitFlush_ignores_shutdown {LogElement : Type} (q : SystemLogQueue LogElement)
    (offset : Nat) (wakes : List (SystemLogQueue LogElement))
    (at_timeout : SystemLogQueue LogElement) (n : Nat) :
    (q.shutdown.waitFlush offset (wakes.map SystemLogQueue.shutdown) at_timeout.shutdown).outcome
        = (q.waitFlush offset wakes at_timeout).outcome
      ∧ (q.shutdown.waitFlush offset (wakes.map SystemLogQueue.shutdown)
            at_timeout.shutdown).timed_out
        = (q.waitFlush offset wakes at_timeout).timed_out
      ∧ (q.shutdown.waitFlush offset (List.replicate n q.shutdown) q.shutdown).outcome
        = (if offset ≤ q.flushed_up_to ∧ q.is_force_prepare_tables = false then Except.ok ()
           else Except.error { code := ErrorCode.TIMEOUT_EXCEEDED, timeout_seconds := 180 })
      ∧ (q.shutdown.waitFlush offset (List.replicate n q.shutdown) q.shutdown).timed_out
        = !(decide (offset ≤ q.flushed_up_to) && !q.is_force_prepare_tables) := by
  have hw := wait_for_shutdown offset wakes q at_timeout
  refine ⟨?_, ?_, ?_, ?_⟩
  · rw [SystemLogQueue.waitFlush_outcome, SystemLogQueue.waitFlush_outcome, hw.1]
  · unfold SystemLogQueue.waitFlush
    simp only [hw.1]
    split_ifs <;> exact hw.2
  · cases hc : q.shutdown.waitFlush_condition offset
    · rw [(SystemLogQueue.waitFlush_static_false q.shutdown offset n hc).1]
      have hn : ¬ (offset ≤ q.flushed_up_to ∧ q.is_force_prepare_tables = false) := by
        intro h
        simp [SystemLogQueue.waitFlush_condition, SystemLogQueue.shutdown, h.1, h.2] at hc
      rw [if_neg hn]
    · rw [(SystemLogQueue.waitFlush_of_condition q.shutdown offset _ _ hc).1]
      have hp : offset ≤ q.flushed_up_to ∧ q.is_force_prepare_tables = false := by
        simpa [SystemLogQueue.waitFlush_condition, SystemLogQueue.shutdown] using hc
      rw [if_pos hp]
  · cases hc : q.shutdown.waitFlush_condition offset
    · rw [(SystemLogQueue.waitFlush_static_false q.shutdown offset n hc).2.1]
      have : (decide (offset ≤ q.flushed_up_to) && !q.is_force_prepare_tables) = false := hc
      rw [this]
      rfl
    · rw [(SystemLogQueue.waitFlush_of_condition q.shutdown offset _ _ hc).2.1]
      have : (decide (offset ≤ q.flushed_up_to) && !q.is_force_prepare_tables) = true := hc
      rw [this]
      rfl

/-! ## Shutdown -/

/-- On a shut-down queue `add` changes nothing, whatever the re-entrancy flag. -/
theorem SystemLogQueue.add_of_shutdown {LogElement : Type} (flag : Bool)
    (q : SystemLogQueue LogElement) (e : LogElement) (hs : q.is_shutdown = true) :
    (q.add flag e).state = q := by
  unfold SystemLogQueue.add
  cases flag <;> simp [hs]

/-- No call clears the shutdown flag. -/
theorem SystemLogQueue.step_is_shutdown {LogElement : Type} (q : SystemLogQueue LogElement)
    (op : Op LogElement) (hs : q.is_shutdown = true) : (q.step op).is_shutdown = true := by
  cases op with
  | add flag e =>
    simp only [SystemLogQueue.step]
    rw [SystemLogQueue.add_of_shutdown flag q e hs]
    exact hs
  | pop output => exact hs
  | notifyFlush force => simp [SystemLogQueue.step, SystemLogQueue.notifyFlush, hs]
  | confirm x => exact hs
  | shutdown => rfl

theorem SystemLogQueue.run_is_shutdown {LogElement : Type} (ops : List (Op LogElement))
    (q : SystemLogQueue LogElement) (hs : q.is_shutdown = true) :
    (q.run ops).is_shutdown = true := by
  induction ops generalizing q with
  | nil => exact hs
  | cons op ops ih => exact ih (q.step op) (SystemLogQueue.step_is_shutdown q op hs)

/-- On a shut-down queue only `pop` changes the buffer. -/
theorem SystemLogQueue.run_queue_of_shutdown {LogElement : Type} (ops : List (Op LogElement))
    (q : SystemLogQueue LogElement) (hs : q.is_shutdown = true)
    (hnopop : ∀ op ∈ ops, op.is_pop = false) : (q.run ops).queue = q.queue := by
  induction ops generalizing q with
  | nil => rfl
  | cons op ops ih =>
    have hrun : q.run (op :: ops) = (q.step op).run ops := rfl
    rw [hrun, ih (q.step op) (SystemLogQueue.step_is_shutdown q op hs)
      (fun o ho => hnopop o (List.mem_cons_of_mem _ ho))]
    have hop := hnopop op (List.mem_cons_self _ _)
    cases op with
    | add flag e =>
      simp only [SystemLogQueue.step]
      rw [SystemLogQueue.add_of_shutdown flag q e hs]
    | pop output => simp [Op.is_pop] at hop
    | notifyFlush force =>
      simp only [SystemLogQueue.step]
      exact (SystemLogQueue.notifyFlush_frame q force).1
    | confirm x => rfl
    | shutdown => rfl

/-- C7 (shutdown drains the remainder): for every queue state, after
shutdown() the wake condition of pop is true; the next pop, whatever calls
other than pop come before it, returns exactly the events that were in the
buffer at shutdown, in order, with exit_this_thread = true; and in every state
reached after shutdown() by any sequence of calls the shutdown flag is still
set and an add call leaves the whole queue state unchanged, emits no
diagnostic and keeps the re-entrancy flag. -/
theorem C7_shutdown_drains_remainder {LogElement : Type} (q : SystemLogQueue LogElement)
    (between later : List (Op LogElement)) (output : List LogElement)
    (flag : Bool) (e : LogElement)
    (hnopop : ∀ op ∈ between, op.is_pop = false) :
    q.shutdown.pop_wake_condition = true
      ∧ ((q.shutdown.run between).pop output).output = q.queue
      ∧ ((q.shutdown.run between).pop output).exit_this_thread = true
      ∧ (q.shutdown.run later).is_shutdown = true
      ∧ ((q.shutdown.run later).add flag e).state = q.shutdown.run later
      ∧ ((q.shutdown.run later).add flag e).log = []
      ∧ ((q.shutdown.run later).add flag e).recursive_add_call = flag := by
  have hs : q.shutdown.is_shutdown = true := rfl
  have hlater := SystemLogQueue.run_is_shutdown later q.shutdown hs
  refine ⟨?_, ?_, ?_, hlater, SystemLogQueue.add_of_shutdown flag _ e hlater, ?_, ?_⟩
  · simp [SystemLogQueue.pop_wake_condition, SystemLogQueue.shutdown]
  · simp only [SystemLogQueue.pop]
    rw [SystemLogQueue.run_queue_of_shutdown between q.shutdown hs hnopop]
    rfl
  · simp only [SystemLogQueue.pop]
    exact SystemLogQueue.run_is_shutdown between q.shutdown hs
  · unfold SystemLogQueue.add
    cases flag <;> simp [hlater]
  · unfold SystemLogQueue.add
    cases flag <;> simp [hlater]

/-- Two buffered events, shutdown, then a dropped add and a confirm before
the final pop. -/
theorem C7_shutdown_drains_remainder_witness :
    ((((SystemLogQueue.initial Nat 0).run [Op.add false 7, Op.add false 8]).shutdown.run
        [Op.add false 9, Op.confirm 0]).pop [5]).output = [7, 8] :=
  (C7_shutdown_drains_remainder
    ((SystemLogQueue.initial Nat 0).run [Op.add false 7, Op.add false 8])
    [Op.add false 9, Op.confirm 0] [Op.pop [], Op.add false 1] [5] false 9
    (by decide)).2.1

/-! ## Capacity -/

/-- No call makes the buffer longer than the capacity. -/
theorem SystemLogQueue.step_capacity {LogElement : Type} (q : SystemLogQueue LogElement)
    (op : Op LogElement) (hcap : q.queue.length ≤ DBMS_SYSTEM_LOG_QUEUE_SIZE) :
    (q.step op).queue.length ≤ DBMS_SYSTEM_LOG_QUEUE_SIZE := by
  cases op with
  | add flag e =>
    simp only [SystemLogQueue.step, SystemLogQueue.add_queue]
    split_ifs with hacc
    · simp only [SystemLogQueue.add_accepted, Bool.and_eq_true, decide_eq_true_eq] at hacc
      rw [List.length_append, List.length_singleton]
      omega
    · exact hcap
  | pop output => simp [SystemLogQueue.step, SystemLogQueue.pop]
  | notifyFlush force =>
    simp only [SystemLogQueue.step]
    rw [(SystemLogQueue.notifyFlush_frame q force).1]
    exact hcap
  | confirm x => exact hcap
  | shutdown => exact hcap

theorem SystemLogQueue.run_capacity {LogElement : Type} (ops : List (Op LogElement))
    (q : SystemLogQueue LogElement) (hcap : q.queue.length ≤ DBMS_SYSTEM_LOG_QUEUE_SIZE) :
    (q.run ops).queue.length ≤ DBMS_SYSTEM_LOG_QUEUE_SIZE := by
  induction ops generalizing q with
  | nil => exact hcap
  | cons op ops ih => exact ih (q.step op) (SystemLogQueue.step_capacity q op hcap)

/-- C8 (capacity invariant): in every state reached from the empty queue by
any sequence of add, pop, notifyFlush, confirm and shutdown calls, the buffer
holds at most DBMS_SYSTEM_LOG_QUEUE_SIZE = 1048576 events, whatever the
vectors passed to pop held before. -/
theorem C8_capacity_invariant {LogElement : Type} (logged : Nat) (ops : List (Op LogElement)) :
    ((SystemLogQueue.initial LogElement logged).run ops).queue.length
        ≤ DBMS_SYSTEM_LOG_QUEUE_SIZE
      ∧ DBMS_SYSTEM_LOG_QUEUE_SIZE = 1048576 :=
  ⟨SystemLogQueue.run_capacity ops _ (Nat.zero_le _), rfl⟩

/-! ## Runs of accepted adds -/

/-- An `add` with the re-entrancy flag clear, on a queue that is not shut down
and not full: the element is appended, and the requested offset is raised when
the buffer holds exactly half the capacity. -/
theorem SystemLogQueue.add_state_of_room {LogElement : Type} (q : SystemLogQueue LogElement)
    (e : LogElement) (hs : q.is_shutdown = false)
    (hroom : q.queue.length < DBMS_SYSTEM_LOG_QUEUE_SIZE) :
    (q.add false e).state =
      { q with
        queue := q.queue ++ [e]
        requested_flush_up_to :=
          if q.queue.length = DBMS_SYSTEM_LOG_QUEUE_SIZE / 2 then
            max q.requested_flush_up_to
              ((q.queue_front_index + q.queue.length) % UINT64_MODULUS)
          else q.requested_flush_up_to } := by
  obtain ⟨buf, front, force, req, fl, logged, sd⟩ := q
  simp only at hs hroom
  subst hs
  have hnot : ¬ DBMS_SYSTEM_LOG_QUEUE_SIZE ≤ buf.length := by omega
  unfold SystemLogQueue.add
  simp only [Bool.false_eq_true, if_false, beq_iff_eq, ge_iff_le]
  by_cases hhalf : buf.length = DBMS_SYSTEM_LOG_QUEUE_SIZE / 2
  · by_cases hlt : req < (front + buf.length) % UINT64_MODULUS
    · simp only [if_pos hhalf, if_pos hlt, if_neg hnot, Nat.max_eq_right (Nat.le_of_lt hlt)]
    · simp only [if_pos hhalf, if_neg hlt, if_neg hnot, Nat.max_eq_left (Nat.le_of_not_lt hlt)]
  · simp only [if_neg hhalf, if_neg hnot]

/-- The diagnostics of an `add` that finds room: the "half full" line exactly
when the buffer holds half the capacity. -/
theorem SystemLogQueue.add_log_of_room {LogElement : Type} (q : SystemLogQueue LogElement)
    (e : LogElement) (hs : q.is_shutdown = false)
    (hroom : q.queue.length < DBMS_SYSTEM_LOG_QUEUE_SIZE) :
    (q.add false e).log =
      if q.queue.length = DBMS_SYSTEM_LOG_QUEUE_SIZE / 2 then [Diagnostic.queue_is_half_full]
      else [] := by
  obtain ⟨buf, front, force, req, fl, logged, sd⟩ := q
  simp only at hs hroom
  subst hs
  have hnot : ¬ DBMS_SYSTEM_LOG_QUEUE_SIZE ≤ buf.length := by omega
  unfold SystemLogQueue.add
  simp only [Bool.false_eq_true, if_false, beq_iff_eq, ge_iff_le]
  by_cases hhalf : buf.length = DBMS_SYSTEM_LOG_QUEUE_SIZE / 2
  · by_cases hlt : req < (front + buf.length) % UINT64_MODULUS
    · simp only [if_pos hhalf, if_pos hlt, if_neg hnot, decide_True, if_true]
    · simp only [if_pos hhalf, if_neg hlt, if_neg hnot, decide_True, if_true]
  · simp only [if_neg hhalf, if_neg hnot, decide_False, Bool.false_eq_true, if_false]

/-- An `add` that finds the buffer full, on a queue that is not shut down:
only `logged_queue_full_at_index` can change. -/
theorem SystemLogQueue.add_state_of_full {LogElement : Type} (q : SystemLogQueue LogElement)
    (e : LogElement) (hs : q.is_shutdown = false)
    (hfull : DBMS_SYSTEM_LOG_QUEUE_SIZE ≤ q.queue.length) :
    (q.add false e).state = { q with logged_queue_full_at_index := q.queue_front_index } := by
  obtain ⟨buf, front, force, req, fl, logged, sd⟩ := q
  simp only at hs hfull
  subst hs
  have hhalf : ¬ buf.length = DBMS_SYSTEM_LOG_QUEUE_SIZE / 2 := by
    simp only [DBMS_SYSTEM_LOG_QUEUE_SIZE] at hfull ⊢
    omega
  unfold SystemLogQueue.add
  simp only [Bool.false_eq_true, if_false, beq_iff_eq, ge_iff_le, bne_iff_ne, ne_eq,
    if_neg hhalf, if_pos hfull]
  by_cases hlog : front = logged
  · simp [hlog]
  · simp [hlog]

/-- Consecutive calls `add` that all find room, on a queue that is not shut
down: the events are appended in order, the requested offset is raised once,
by the call that finds half the capacity buffered, and nothing else changes. -/
theorem SystemLogQueue.run_adds {LogElement : Type} (es : List LogElement)
    (q : SystemLogQueue LogElement) (hs : q.is_shutdown = false)
    (hroom : q.queue.length + es.length ≤ DBMS_SYSTEM_LOG_QUEUE_SIZE) :
    q.run (adds es) =
      { q with
        queue := q.queue ++ es
        requested_flush_up_to :=
          if q.queue.length ≤ DBMS_SYSTEM_LOG_QUEUE_SIZE / 2
              ∧ DBMS_SYSTEM_LOG_QUEUE_SIZE / 2 < q.queue.length + es.length then
            max q.requested_flush_up_to
              ((q.queue_front_index + DBMS_SYSTEM_LOG_QUEUE_SIZE / 2) % UINT64_MODULUS)
          else q.requested_flush_up_to } := by
  induction es generalizing q with
  | nil =>
    obtain ⟨buf, front, force, req, fl, logged, sd⟩ := q
    have hno : ¬ (buf.length ≤ DBMS_SYSTEM_LOG_QUEUE_SIZE / 2
        ∧ DBMS_SYSTEM_LOG_QUEUE_SIZE / 2 < buf.length + 0) := by omega
    simp only [adds, List.map_nil, SystemLogQueue.run, List.foldl_nil, List.append_nil,
      List.length_nil, if_neg hno]
  | cons e es ih =>
    have hrun : q.run (adds (e :: es)) = ((q.add false e).state).run (adds es) := rfl
    simp only [List.length_cons] at hroom
    rw [hrun, SystemLogQueue.add_state_of_room q e hs (by omega)]
    obtain ⟨buf, front, force, req, fl, logged, sd⟩ := q
    simp only at hs hroom ⊢
    subst hs
    rw [ih { queue := buf ++ [e], queue_front_index := front, is_force_prepare_tables := force,
             requested_flush_up_to :=
               if buf.length = DBMS_SYSTEM_LOG_QUEUE_SIZE / 2 then
                 max req ((front + buf.length) % UINT64_MODULUS)
               else req,
             flushed_up_to := fl, logged_queue_full_at_index := logged, is_shutdown := false }
      rfl (by simp only [List.length_append, List.length_singleton]; omega)]
    simp only [List.length_append, List.length_singleton, List.length_cons, List.length_nil,
      Nat.zero_add, List.append_assoc, List.singleton_append, SystemLogQueue.mk.injEq,
      true_and, and_true]
    by_cases hhalf : buf.length = DBMS_SYSTEM_LOG_QUEUE_SIZE / 2
    · have h1 : ¬ (buf.length + 1 ≤ DBMS_SYSTEM_LOG_QUEUE_SIZE / 2
          ∧ DBMS_SYSTEM_LOG_QUEUE_SIZE / 2 < buf.length + 1 + es.length) := by omega
      have h2 : buf.length ≤ DBMS_SYSTEM_LOG_QUEUE_SIZE / 2
          ∧ DBMS_SYSTEM_LOG_QUEUE_SIZE / 2 < buf.length + (es.length + 1) := by omega
      rw [if_neg h1, if_pos hhalf, if_pos h2, hhalf]
    · rw [if_neg hhalf]
      by_cases h1 : buf.length + 1 ≤ DBMS_SYSTEM_LOG_QUEUE_SIZE / 2
          ∧ DBMS_SYSTEM_LOG_QUEUE_SIZE / 2 < buf.length + 1 + es.length
      · have h2 : buf.length ≤ DBMS_SYSTEM_LOG_QUEUE_SIZE / 2
            ∧ DBMS_SYSTEM_LOG_QUEUE_SIZE / 2 < buf.length + (es.length + 1) := by omega
        rw [if_pos h1, if_pos h2]
      · have h2 : ¬ (buf.length ≤ DBMS_SYSTEM_LOG_QUEUE_SIZE / 2
            ∧ DBMS_SYSTEM_LOG_QUEUE_SIZE / 2 < buf.length + (es.length + 1)) := by omega
        rw [if_neg h1, if_neg h2]

/-- The buffer and the shutdown flag after consecutive accepted adds on an
empty buffer. -/
theorem SystemLogQueue.run_adds_of_empty {LogElement : Type} (es : List LogElement)
    (q : SystemLogQueue LogElement) (hempty : q.queue = []) (hs : q.is_shutdown = false)
    (hlen : es.length ≤ DBMS_SYSTEM_LOG_QUEUE_SIZE) :
    (q.run (adds es)).queue = es
      ∧ (q.run (adds es)).is_shutdown = false
      ∧ (q.run (adds es)).queue_front_index = q.queue_front_index
      ∧ (q.run (adds es)).flushed_up_to = q.flushed_up_to
      ∧ (q.run (adds es)).is_force_prepare_tables = q.is_force_prepare_tables
      ∧ (q.run (adds es)).requested_flush_up_to =
          if DBMS_SYSTEM_LOG_QUEUE_SIZE / 2 < es.length then
            max q.requested_flush_up_to
              ((q.queue_front_index + DBMS_SYSTEM_LOG_QUEUE_SIZE / 2) % UINT64_MODULUS)
          else q.requested_flush_up_to := by
  rw [SystemLogQueue.run_adds es q hs (by rw [hempty]; simpa using hlen)]
  refine ⟨by simp [hempty], hs, rfl, rfl, rfl, ?_⟩
  simp only [hempty, List.length_nil, Nat.zero_le, true_and, Nat.zero_add]

/-! ## Overflow boundary -/

/-- C9 (overflow boundary): start from a queue that is not shut down and has
an empty buffer, and let the events es, as many as the capacity, be added one
after the other with no other call in between. For every k below the capacity
the buffer after the first k adds is the first k events, and the next add is
accepted and makes the buffer one longer. After all of them the buffer is es,
and one more add is dropped: the buffer, its length, front_index,
requested_flush_up_to, flushed_up_to, force_prepare_tables and shutdown are
as before. The call returns as any other (add has no error result) and
leaves the re-entrancy flag clear. -/
theorem C9_overflow_boundary {LogElement : Type} (q : SystemLogQueue LogElement)
    (es : List LogElement) (e : LogElement) (k : Nat)
    (hempty : q.queue = []) (hshut : q.is_shutdown = false)
    (hlen : es.length = DBMS_SYSTEM_LOG_QUEUE_SIZE) (hk : k < DBMS_SYSTEM_LOG_QUEUE_SIZE) :
    ((q.run (adds (es.take k))).queue = es.take k
        ∧ SystemLogQueue.add_accepted false (q.run (adds (es.take k))) = true
        ∧ ((q.run (adds (es.take k))).add false e).state.queue = es.take k ++ [e]
        ∧ ((q.run (adds (es.take k))).add false e).state.queue.length = k + 1)
      ∧ (q.run (adds es)).queue = es
      ∧ SystemLogQueue.add_accepted false (q.run (adds es)) = false
      ∧ ((q.run (adds es)).add false e).state.queue = es
      ∧ ((q.run (adds es)).add false e).state.queue.length = DBMS_SYSTEM_LOG_QUEUE_SIZE
      ∧ ((q.run (adds es)).add false e).state.queue_front_index
          = (q.run (adds es)).queue_front_index
      ∧ ((q.run (adds es)).add false e).state.requested_flush_up_to
          = (q.run (adds es)).requested_flush_up_to
      ∧ ((q.run (adds es)).add false e).state.flushed_up_to = (q.run (adds es)).flushed_up_to
      ∧ ((q.run (adds es)).add false e).state.is_force_prepare_tables
          = (q.run (adds es)).is_force_prepare_tables
      ∧ ((q.run (adds es)).add false e).state.is_shutdown = (q.run (adds es)).is_shutdown
      ∧ ((q.run (adds es)).add false e).recursive_add_call = false := by
  have htake : (es.take k).length = k := by
    rw [List.length_take, hlen]
    omega
  obtain ⟨hq1, hs1, -⟩ := SystemLogQueue.run_adds_of_empty (es.take k) q hempty hshut
    (by rw [htake]; omega)
  obtain ⟨hq2, hs2, -⟩ := SystemLogQueue.run_adds_of_empty es q hempty hshut (by omega)
  have hroom1 : (q.run (adds (es.take k))).queue.length < DBMS_SYSTEM_LOG_QUEUE_SIZE := by
    rw [hq1, htake]
    exact hk
  have hfull2 : DBMS_SYSTEM_LOG_QUEUE_SIZE ≤ (q.run (adds es)).queue.length := by
    rw [hq2, hlen]
  have hstate := SystemLogQueue.add_state_of_full (q.run (adds es)) e hs2 hfull2
  refine ⟨⟨hq1, ?_, ?_, ?_⟩, hq2, ?_, ?_, ?_, ?_, ?_, ?_, ?_, ?_, ?_⟩
  · simp [SystemLogQueue.add_accepted, hs1, hroom1]
  · rw [SystemLogQueue.add_state_of_room _ e hs1 hroom1, hq1]
  · rw [SystemLogQueue.add_state_of_room _ e hs1 hroom1, hq1]
    simp [htake]
  · simp only [SystemLogQueue.add_accepted, Bool.and_eq_false_iff, decide_eq_false_iff_not]
    right
    omega
  · rw [hstate]
    exact hq2
  · rw [hstate]
    simp only []
    rw [hq2, hlen]
  · rw [hstate]
  · rw [hstate]
  · rw [hstate]
  · rw [hstate]
  · rw [hstate]
  · unfold SystemLogQueue.add
    simp only [Bool.false_eq_true, if_false, hs2]
    split_ifs <;> rfl

/-- The initial queue and as many zeros as the capacity. -/
theorem C9_overflow_boundary_witness :
    (((SystemLogQueue.initial Nat 0).run
        (adds (List.replicate DBMS_SYSTEM_LOG_QUEUE_SIZE 0))).add false 1).state.queue
      = List.replicate DBMS_SYSTEM_LOG_QUEUE_SIZE 0 :=
  (C9_overflow_boundary (SystemLogQueue.initial Nat 0)
    (List.replicate DBMS_SYSTEM_LOG_QUEUE_SIZE 0) 1 0 rfl rfl
    (List.length_replicate _ _) (by decide)).2.2.2.1

/-! ## Half-full trigger -/

/-- C10, as stated, fails: after exactly capacity/2 accepted adds on the
initial queue the buffer holds capacity/2 events and requested_flush_up_to is
still 0, below front_index + capacity/2 = 524288. -/
theorem C10_counterexample :
    ((SystemLogQueue.initial Nat 0).run
        (adds (List.replicate (DBMS_SYSTEM_LOG_QUEUE_SIZE / 2) 0))).queue.length
        = DBMS_SYSTEM_LOG_QUEUE_SIZE / 2
      ∧ ((SystemLogQueue.initial Nat 0).run
        (adds (List.replicate (DBMS_SYSTEM_LOG_QUEUE_SIZE / 2) 0))).requested_flush_up_to = 0
      ∧ ¬ (((SystemLogQueue.initial Nat 0).run
          (adds (List.replicate (DBMS_SYSTEM_LOG_QUEUE_SIZE / 2) 0))).queue_front_index
            + DBMS_SYSTEM_LOG_QUEUE_SIZE / 2
          ≤ ((SystemLogQueue.initial Nat 0).run
            (adds (List.replicate (DBMS_SYSTEM_LOG_QUEUE_SIZE / 2) 0))).requested_flush_up_to) := by
  obtain ⟨hq, -, hfront, -, -, hreq⟩ := SystemLogQueue.run_adds_of_empty
    (List.replicate (DBMS_SYSTEM_LOG_QUEUE_SIZE / 2) 0) (SystemLogQueue.initial Nat 0) rfl rfl
    (by rw [List.length_replicate]; decide)
  rw [List.length_replicate, if_neg (Nat.lt_irrefl _)] at hreq
  rw [hq, hfront, hreq, List.length_replicate]
  exact ⟨rfl, rfl, by decide⟩

/-- C10, amended (half-full trigger): start from a queue that is not shut down
and has an empty buffer, with front_index + capacity/2 below 2^64, and add
events one after the other with no other call in between, fewer than the
capacity. As long as at most capacity/2 events were added,
requested_flush_up_to is unchanged; from capacity/2 + 1 events on it is
max(old requested_flush_up_to, front_index + capacity/2), hence at least
front_index + capacity/2. The one add that raises it and logs "half full" is
the one that finds exactly capacity/2 events buffered. -/
theorem C10_half_full_trigger {LogElement : Type} (q : SystemLogQueue LogElement)
    (es : List LogElement) (e : LogElement)
    (hempty : q.queue = []) (hshut : q.is_shutdown = false)
    (hlen : es.length < DBMS_SYSTEM_LOG_QUEUE_SIZE)
    (hfit : q.queue_front_index + DBMS_SYSTEM_LOG_QUEUE_SIZE / 2 < UINT64_MODULUS) :
    (q.run (adds es)).queue_front_index = q.queue_front_index
      ∧ (q.run (adds es)).requested_flush_up_to =
          (if es.length ≤ DBMS_SYSTEM_LOG_QUEUE_SIZE / 2 then q.requested_flush_up_to
           else max q.requested_flush_up_to
             (q.queue_front_index + DBMS_SYSTEM_LOG_QUEUE_SIZE / 2))
      ∧ (DBMS_SYSTEM_LOG_QUEUE_SIZE / 2 < es.length →
          q.queue_front_index + DBMS_SYSTEM_LOG_QUEUE_SIZE / 2
            ≤ (q.run (adds es)).requested_flush_up_to)
      ∧ ((q.run (adds es)).add false e).state.requested_flush_up_to =
          (if es.length = DBMS_SYSTEM_LOG_QUEUE_SIZE / 2 then
            max q.requested_flush_up_to (q.queue_front_index + DBMS_SYSTEM_LOG_QUEUE_SIZE / 2)
           else (q.run (adds es)).requested_flush_up_to)
      ∧ ((q.run (adds es)).add false e).log =
          (if es.length = DBMS_SYSTEM_LOG_QUEUE_SIZE / 2 then [Diagnostic.queue_is_half_full]
           else []) := by
  obtain ⟨hq, hs, hfront, -, -, hreq⟩ :=
    SystemLogQueue.run_adds_of_empty es q hempty hshut (Nat.le_of_lt hlen)
  rw [Nat.mod_eq_of_lt hfit] at hreq
  have hroom : (q.run (adds es)).queue.length < DBMS_SYSTEM_LOG_QUEUE_SIZE := by
    rw [hq]
    exact hlen
  refine ⟨hfront, ?_, ?_, ?_, ?_⟩
  · rw [hreq]
    by_cases h : es.length ≤ DBMS_SYSTEM_LOG_QUEUE_SIZE / 2
    · rw [if_pos h, if_neg (by omega)]
    · rw [if_neg h, if_pos (by omega)]
  · intro h
    rw [hreq, if_pos h]
    exact Nat.le_max_right _ _
  · rw [SystemLogQueue.add_state_of_room _ e hs hroom]
    simp only []
    rw [hq, hfront, hreq]
    by_cases h : es.length = DBMS_SYSTEM_LOG_QUEUE_SIZE / 2
    · rw [if_pos h, if_pos h, if_neg (by omega), h, Nat.mod_eq_of_lt hfit]
    · rw [if_neg h, if_neg h]
  · rw [SystemLogQueue.add_log_of_room _ e hs hroom, hq]

/-- The initial queue and capacity/2 + 1 zeros. -/
theorem C10_half_full_trigger_witness :
    (SystemLogQueue.initial Nat 0).queue_front_index + DBMS_SYSTEM_LOG_QUEUE_SIZE / 2
      ≤ ((SystemLogQueue.initial Nat 0).run
          (adds (List.replicate (DBMS_SYSTEM_LOG_QUEUE_SIZE / 2 + 1) 0))).requested_flush_up_to :=
  (C10_half_full_trigger (SystemLogQueue.initial Nat 0)
    (List.replicate (DBMS_SYSTEM_LOG_QUEUE_SIZE / 2 + 1) 0) 0 rfl rfl
    (by rw [List.length_replicate]; decide) (by decide)).2.2.1
    (by rw [List.length_replicate]; decide)

/-! ## notifyFlush, pop and confirm, call by call -/

/-- C11 (notifyFlush on a running queue): on a queue that is not shut down
notifyFlush(force) returns this_offset = front_index + buffer.length, sets
force_prepare_tables to (old force_prepare_tables OR force) and
requested_flush_up_to to max(old requested_flush_up_to, this_offset), and
leaves the buffer, front_index, flushed_up_to and shutdown unchanged;
notifyFlush(false) keeps force_prepare_tables as it is. The sum
front_index + buffer.length is assumed to fit into uint64_t. -/
theorem C11_notifyFlush_running {LogElement : Type} (q : SystemLogQueue LogElement)
    (force : Bool) (hshut : q.is_shutdown = false)
    (hfit : q.queue_front_index + q.queue.length < UINT64_MODULUS) :
    (q.notifyFlush force).1 = q.queue_front_index + q.queue.length
      ∧ (q.notifyFlush force).2.is_force_prepare_tables = (q.is_force_prepare_tables || force)
      ∧ (q.notifyFlush force).2.requested_flush_up_to
          = max q.requested_flush_up_to (q.queue_front_index + q.queue.length)
      ∧ (q.notifyFlush force).2.queue = q.queue
      ∧ (q.notifyFlush force).2.queue_front_index = q.queue_front_index
      ∧ (q.notifyFlush force).2.flushed_up_to = q.flushed_up_to
      ∧ (q.notifyFlush force).2.is_shutdown = q.is_shutdown
      ∧ (q.notifyFlush force).2.logged_queue_full_at_index = q.logged_queue_full_at_index
      ∧ (q.notifyFlush false).2.is_force_prepare_tables = q.is_force_prepare_tables := by
  simp [SystemLogQueue.notifyFlush, hshut, Nat.mod_eq_of_lt hfit]

/-- A queue with one buffered event and a pending prepare-tables request. -/
theorem C11_notifyFlush_running_witness :
    ((((SystemLogQueue.initial Nat 0).run [Op.add false 7, Op.notifyFlush true]).notifyFlush
        false).2.is_force_prepare_tables = true)
      ∧ (((SystemLogQueue.initial Nat 0).run [Op.add false 7, Op.notifyFlush true]).notifyFlush
        false).1 = 1 :=
  ⟨((C11_notifyFlush_running
      ((SystemLogQueue.initial Nat 0).run [Op.add false 7, Op.notifyFlush true]) false
      (by decide) (by decide)).2.2.2.2.2.2.2.2).trans (by decide),
   ((C11_notifyFlush_running
      ((SystemLogQueue.initial Nat 0).run [Op.add false 7, Op.notifyFlush true]) false
      (by decide) (by decide)).1).trans (by decide)⟩

/-- C12 (notifyFlush and the sentinel): on a queue that is already shut down
notifyFlush(force) returns the sentinel 2^64 - 1 for either value of force and
leaves the whole queue state unchanged; on a queue that is not shut down the
returned offset is front_index + buffer.length and differs from the sentinel.
For the second part front_index + buffer.length is assumed to be below
2^64 - 1, the largest uint64_t value. -/
theorem C12_notifyFlush_sentinel {LogElement : Type} (q running : SystemLogQueue LogElement)
    (force : Bool) (hshut : q.is_shutdown = true)
    (hrunning : running.is_shutdown = false)
    (hfit : running.queue_front_index + running.queue.length < UINT64_MAX) :
    (q.notifyFlush force).1 = 2 ^ 64 - 1
      ∧ (q.notifyFlush force).1 = UINT64_MAX
      ∧ (q.notifyFlush force).2 = q
      ∧ (running.notifyFlush force).1 = running.queue_front_index + running.queue.length
      ∧ (running.notifyFlush force).1 ≠ UINT64_MAX := by
  have hmod : running.queue_front_index + running.queue.length < UINT64_MODULUS := by
    simp only [UINT64_MAX] at hfit
    simp only [UINT64_MODULUS]
    omega
  have hoff : (running.notifyFlush force).1
      = running.queue_front_index + running.queue.length := by
    simp [SystemLogQueue.notifyFlush, hrunning, Nat.mod_eq_of_lt hmod]
  refine ⟨?_, ?_, ?_, hoff, ?_⟩
  · simp [SystemLogQueue.notifyFlush, hshut, UINT64_MAX]
  · simp [SystemLogQueue.notifyFlush, hshut]
  · simp [SystemLogQueue.notifyFlush, hshut]
  · rw [hoff]
    omega

/-- The initial queue after shutdown, and the initial queue holding one event. -/
theorem C12_notifyFlush_sentinel_witness :
    ((SystemLogQueue.initial Nat 0).shutdown.notifyFlush true).1 = UINT64_MAX
      ∧ (((SystemLogQueue.initial Nat 0).run [Op.add false 7]).notifyFlush true).1
          ≠ UINT64_MAX :=
  ⟨(C12_notifyFlush_sentinel (SystemLogQueue.initial Nat 0).shutdown
      ((SystemLogQueue.initial Nat 0).run [Op.add false 7]) true rfl
      (by decide) (by decide)).2.1,
   (C12_notifyFlush_sentinel (SystemLogQueue.initial Nat 0).shutdown
      ((SystemLogQueue.initial Nat 0).run [Op.add false 7]) true rfl
      (by decide) (by decide)).2.2.2.2⟩

/-- C13 (pop postcondition): for every queue state and every prior content of
the output vector, after pop the new front_index is old front_index + old
buffer.length, to_flush_end is the new front_index, output is exactly the old
buffer in order, the buffer is empty, should_prepare_tables_anyway is
force_prepare_tables, exit_this_thread is shutdown, and
requested_flush_up_to, flushed_up_to, force_prepare_tables and shutdown are
unchanged. The sum front_index + buffer.length is assumed to fit into
uint64_t. -/
theorem C13_pop_postcondition {LogElement : Type} (q : SystemLogQueue LogElement)
    (output : List LogElement)
    (hfit : q.queue_front_index + q.queue.length < UINT64_MODULUS) :
    (q.pop output).state.queue_front_index = q.queue_front_index + q.queue.length
      ∧ (q.pop output).to_flush_end = (q.pop output).state.queue_front_index
      ∧ (q.pop output).output = q.queue
      ∧ (q.pop output).state.queue = []
      ∧ (q.pop output).should_prepare_tables_anyway = q.is_force_prepare_tables
      ∧ (q.pop output).exit_this_thread = q.is_shutdown
      ∧ (q.pop output).state.requested_flush_up_to = q.requested_flush_up_to
      ∧ (q.pop output).state.flushed_up_to = q.flushed_up_to
      ∧ (q.pop output).state.is_force_prepare_tables = q.is_force_prepare_tables
      ∧ (q.pop output).state.is_shutdown = q.is_shutdown
      ∧ (q.pop output).state.logged_queue_full_at_index = q.logged_queue_full_at_index := by
  simp [SystemLogQueue.pop, Nat.mod_eq_of_lt hfit]

/-- Two buffered events popped into a vector that held three. -/
theorem C13_pop_postcondition_witness :
    (((SystemLogQueue.initial Nat 0).run [Op.add false 7, Op.add false 8]).pop
        [1, 2, 3]).output = [7, 8]
      ∧ (((SystemLogQueue.initial Nat 0).run [Op.add false 7, Op.add false 8]).pop
        [1, 2, 3]).state.queue_front_index = 2 :=
  ⟨((C13_pop_postcondition ((SystemLogQueue.initial Nat 0).run [Op.add false 7, Op.add false 8])
      [1, 2, 3] (by decide)).2.2.1).trans (by decide),
   ((C13_pop_postcondition ((SystemLogQueue.initial Nat 0).run [Op.add false 7, Op.add false 8])
      [1, 2, 3] (by decide)).1).trans (by decide)⟩

/-- C14 (confirm): confirm(to_flush_end) sets flushed_up_to to exactly
to_flush_end and force_prepare_tables to false, and leaves the buffer,
front_index, requested_flush_up_to and shutdown unchanged, for every queue
state and every argument. -/
theorem C14_confirm_frame {LogElement : Type} (q : SystemLogQueue LogElement)
    (to_flush_end : Nat) :
    (q.confirm to_flush_end).flushed_up_to = to_flush_end
      ∧ (q.confirm to_flush_end).is_force_prepare_tables = false
      ∧ (q.confirm to_flush_end).queue = q.queue
      ∧ (q.confirm to_flush_end).queue_front_index = q.queue_front_index
      ∧ (q.confirm to_flush_end).requested_flush_up_to = q.requested_flush_up_to
      ∧ (q.confirm to_flush_end).is_shutdown = q.is_shutdown
      ∧ (q.confirm to_flush_end).logged_queue_full_at_index = q.logged_queue_full_at_index :=
  ⟨rfl, rfl, rfl, rfl, rfl, rfl, rfl⟩

/-! ## Offsets against the number of events -/

/-- C15, as stated, fails: confirm stores its argument unchecked, so after
add(7) and confirm(9) on the initial queue flushed_up_to is 9 while
front_index + buffer.length is 1. -/
theorem C15_counterexample :
    ((SystemLogQueue.initial Nat 0).run [Op.add false 7, Op.confirm 9]).flushed_up_to = 9
      ∧ ((SystemLogQueue.initial Nat 0).run [Op.add false 7, Op.confirm 9]).queue_front_index
          + ((SystemLogQueue.initial Nat 0).run [Op.add false 7, Op.confirm 9]).queue.length = 1
      ∧ ¬ (((SystemLogQueue.initial Nat 0).run [Op.add false 7, Op.confirm 9]).flushed_up_to
          ≤ ((SystemLogQueue.initial Nat 0).run [Op.add false 7, Op.confirm 9]).queue_front_index
            + ((SystemLogQueue.initial Nat 0).run [Op.add false 7, Op.confirm 9]).queue.length) := by
  decide

/-- C15, amended (confirmed offset bound): in a run that starts from the empty
queue with all counters zero, follows the drain loop (each confirm is called
with the to_flush_end returned by an earlier pop) and accepts fewer than 2^64
events, flushed_up_to <= front_index <= front_index + buffer.length holds in
every state reached, and a confirm with any to_flush_end handed out so far
again leaves flushed_up_to <= front_index + buffer.length. On an arbitrary
queue, right after confirm(x) the bound flushed_up_to <= front_index +
buffer.length holds exactly when x <= front_index + buffer.length. -/
theorem C15_confirmed_offset_bound {LogElement : Type} (logged : Nat)
    (ops : List (Op LogElement)) (q : SystemLogQueue LogElement) (to_flush_end : Nat)
    (hdisc : (History.start (SystemLogQueue.initial LogElement logged)).confirms_follow_pops
      ops = true)
    (hfit : ((History.start (SystemLogQueue.initial LogElement logged)).run ops).accepted.length
      < UINT64_MODULUS) :
    ((SystemLogQueue.initial LogElement logged).run ops).flushed_up_to
        ≤ ((SystemLogQueue.initial LogElement logged).run ops).queue_front_index
      ∧ ((SystemLogQueue.initial LogElement logged).run ops).queue_front_index
        ≤ ((SystemLogQueue.initial LogElement logged).run ops).queue_front_index
          + ((SystemLogQueue.initial LogElement logged).run ops).queue.length
      ∧ ((SystemLogQueue.initial LogElement logged).run ops).flushed_up_to
        ≤ ((SystemLogQueue.initial LogElement logged).run ops).queue_front_index
          + ((SystemLogQueue.initial LogElement logged).run ops).queue.length
      ∧ ((q.confirm to_flush_end).flushed_up_to
            ≤ (q.confirm to_flush_end).queue_front_index + (q.confirm to_flush_end).queue.length
          ↔ to_flush_end ≤ q.queue_front_index + q.queue.length)
      ∧ ∀ x ∈ ((History.start (SystemLogQueue.initial LogElement logged)).run ops).flush_ends,
          (((SystemLogQueue.initial LogElement logged).run ops).confirm x).flushed_up_to
            ≤ (((SystemLogQueue.initial LogElement logged).run ops).confirm x).queue_front_index
              + (((SystemLogQueue.initial LogElement logged).run ops).confirm x).queue.length := by
  have inv := History.run_consistent ops _ (History.start_consistent logged) hdisc
  have hstate := History.run_state ops (History.start (SystemLogQueue.initial LogElement logged))
  change _ = (SystemLogQueue.initial LogElement logged).run ops at hstate
  rw [← hstate]
  generalize (History.start (SystemLogQueue.initial LogElement logged)).run ops = h
    at inv hfit ⊢
  have hlen : h.batches.flatten.length ≤ h.accepted.length := by
    rw [← inv.fifo, List.length_append]
    omega
  have hfront : h.state.queue_front_index = h.batches.flatten.length := by
    rw [inv.front, Nat.mod_eq_of_lt (by omega)]
  obtain ⟨n, hn, hfl⟩ := inv.flushed
  rw [Nat.mod_eq_of_lt (by omega)] at hfl
  refine ⟨by omega, by omega, by omega, Iff.rfl, ?_⟩
  intro x hx
  obtain ⟨m, hm, hxm⟩ := inv.ends x hx
  rw [Nat.mod_eq_of_lt (by omega)] at hxm
  simp only [SystemLogQueue.confirm]
  omega

/-- Two rounds of the drain loop. -/
theorem C15_confirmed_offset_bound_witness :
    ((SystemLogQueue.initial Nat 0).run
        [Op.add false 7, Op.pop [], Op.confirm 1, Op.add false 8, Op.add false 9, Op.pop [],
          Op.confirm 3, Op.add false 10]).flushed_up_to
      ≤ ((SystemLogQueue.initial Nat 0).run
        [Op.add false 7, Op.pop [], Op.confirm 1, Op.add false 8, Op.add false 9, Op.pop [],
          Op.confirm 3, Op.add false 10]).queue_front_index :=
  (C15_confirmed_offset_bound 0
    [Op.add false 7, Op.pop [], Op.confirm 1, Op.add false 8, Op.add false 9, Op.pop [],
      Op.confirm 3, Op.add false 10] (SystemLogQueue.initial Nat 0) 9 (by decide)
    (by decide)).1

/-- The requested offset after an `add` is the old one or the offset just past
the buffer. -/
theorem SystemLogQueue.add_requested {LogElement : Type} (flag : Bool)
    (q : SystemLogQueue LogElement) (e : LogElement) :
    (q.add flag e).state.requested_flush_up_to = q.requested_flush_up_to
      ∨ (q.add flag e).state.requested_flush_up_to
        = (q.queue_front_index + q.queue.length) % UINT64_MODULUS := by
  unfold SystemLogQueue.add
  simp only []
  split_ifs <;> simp

/-- The requested offset after a `notifyFlush` is the old one or the offset
just past the buffer. -/
theorem SystemLogQueue.notifyFlush_requested {LogElement : Type}
    (q : SystemLogQueue LogElement) (force : Bool) :
    (q.notifyFlush force).2.requested_flush_up_to = q.requested_flush_up_to
      ∨ (q.notifyFlush force).2.requested_flush_up_to
        = (q.queue_front_index + q.queue.length) % UINT64_MODULUS := by
  unfold SystemLogQueue.notifyFlush
  split_ifs
  · exact Or.inl rfl
  · simp only []
    rcases Nat.le_total q.requested_flush_up_to
        ((q.queue_front_index + q.queue.length) % UINT64_MODULUS) with h | h
    · exact Or.inr (Nat.max_eq_right h)
    · exact Or.inl (Nat.max_eq_left h)

/-- One call, with any arguments, keeps three facts: the batches followed by
the buffer are the accepted events, the front index counts the events handed
out, and the requested offset is a number of events accepted at some earlier
moment (both modulo `2 ^ 64`). -/
theorem History.step_requested {LogElement : Type} (h : History LogElement)
    (op : Op LogElement)
    (hfifo : h.batches.flatten ++ h.state.queue = h.accepted)
    (hfront : h.state.queue_front_index = h.batches.flatten.length % UINT64_MODULUS)
    (hreq : ∃ n, n ≤ h.accepted.length ∧ h.state.requested_flush_up_to = n % UINT64_MODULUS) :
    (h.step op).batches.flatten ++ (h.step op).state.queue = (h.step op).accepted
      ∧ (h.step op).state.queue_front_index
          = (h.step op).batches.flatten.length % UINT64_MODULUS
      ∧ ∃ n, n ≤ (h.step op).accepted.length
          ∧ (h.step op).state.requested_flush_up_to = n % UINT64_MODULUS := by
  have hend : (h.state.queue_front_index + h.state.queue.length) % UINT64_MODULUS
      = h.accepted.length % UINT64_MODULUS := by
    rw [hfront, Nat.mod_add_mod, ← hfifo, List.length_append]
  obtain ⟨n, hn, hnreq⟩ := hreq
  refine ⟨History.step_fifo h op hfifo, ?_, ?_⟩
  · cases op with
    | add flag e =>
      simp only [History.step, SystemLogQueue.step, SystemLogQueue.add_front]
      exact hfront
    | pop output =>
      simp only [History.step, SystemLogQueue.step, SystemLogQueue.pop, hfront]
      simp
    | notifyFlush force =>
      simp only [History.step, SystemLogQueue.step, (SystemLogQueue.notifyFlush_frame _ _).2]
      exact hfront
    | confirm x => exact hfront
    | shutdown => exact hfront
  · cases op with
    | add flag e =>
      have hgrow : h.accepted.length ≤ (h.step (Op.add flag e)).accepted.length := by
        simp only [History.step]
        split_ifs
        · rw [List.length_append]
          omega
        · exact Nat.le_refl _
      rcases SystemLogQueue.add_requested flag h.state e with hr | hr
      · exact ⟨n, by omega, hr.trans hnreq⟩
      · exact ⟨h.accepted.length, hgrow, hr.trans hend⟩
    | pop output => exact ⟨n, hn, hnreq⟩
    | notifyFlush force =>
      rcases SystemLogQueue.notifyFlush_requested h.state force with hr | hr
      · exact ⟨n, hn, hr.trans hnreq⟩
      · exact ⟨h.accepted.length, Nat.le_refl _, hr.trans hend⟩
    | confirm x => exact ⟨n, hn, hnreq⟩
    | shutdown => exact ⟨n, hn, hnreq⟩

theorem History.run_requested {LogElement : Type} (ops : List (Op LogElement))
    (h : History LogElement)
    (hfifo : h.batches.flatten ++ h.state.queue = h.accepted)
    (hfront : h.state.queue_front_index = h.batches.flatten.length % UINT64_MODULUS)
    (hreq : ∃ n, n ≤ h.accepted.length ∧ h.state.requested_flush_up_to = n % UINT64_MODULUS) :
    (h.run ops).batches.flatten ++ (h.run ops).state.queue = (h.run ops).accepted
      ∧ (h.run ops).state.queue_front_index
          = (h.run ops).batches.flatten.length % UINT64_MODULUS
      ∧ ∃ n, n ≤ (h.run ops).accepted.length
          ∧ (h.run ops).state.requested_flush_up_to = n % UINT64_MODULUS := by
  induction ops generalizing h with
  | nil => exact ⟨hfifo, hfront, hreq⟩
  | cons op ops ih =>
    obtain ⟨h1, h2, h3⟩ := History.step_requested h op hfifo hfront hreq
    exact ih (h.step op) h1 h2 h3

/-- C20 (no flush request beyond what was enqueued): in every state reached
from the initial state (empty buffer, all counters zero) by any sequence of
calls, requested_flush_up_to <= front_index + buffer.length; so after a pop
immediately followed by confirm(to_flush_end), requested_flush_up_to <=
flushed_up_to and force_prepare_tables is false, and the wake condition of
pop is false unless the queue is shut down. The number of events accepted in
the run is assumed to fit into uint64_t. -/
theorem C20_no_request_beyond_enqueued {LogElement : Type} (logged : Nat)
    (ops : List (Op LogElement)) (output : List LogElement)
    (hfit : ((History.start (SystemLogQueue.initial LogElement logged)).run ops).accepted.length
      < UINT64_MODULUS) :
    ((SystemLogQueue.initial LogElement logged).run ops).requested_flush_up_to
        ≤ ((SystemLogQueue.initial LogElement logged).run ops).queue_front_index
          + ((SystemLogQueue.initial LogElement logged).run ops).queue.length
      ∧ ((((SystemLogQueue.initial LogElement logged).run ops).pop output).state.confirm
          (((SystemLogQueue.initial LogElement logged).run ops).pop output).to_flush_end
          ).requested_flush_up_to
        ≤ ((((SystemLogQueue.initial LogElement logged).run ops).pop output).state.confirm
          (((SystemLogQueue.initial LogElement logged).run ops).pop output).to_flush_end
          ).flushed_up_to
      ∧ ((((SystemLogQueue.initial LogElement logged).run ops).pop output).state.confirm
          (((SystemLogQueue.initial LogElement logged).run ops).pop output).to_flush_end
          ).is_force_prepare_tables = false
      ∧ ((((SystemLogQueue.initial LogElement logged).run ops).pop output).state.confirm
          (((SystemLogQueue.initial LogElement logged).run ops).pop output).to_flush_end
          ).pop_wake_condition
        = ((SystemLogQueue.initial LogElement logged).run ops).is_shutdown := by
  obtain ⟨hfifo, hfront, n, hn, hreq⟩ := History.run_requested ops
    (History.start (SystemLogQueue.initial LogElement logged)) rfl rfl ⟨0, Nat.le_refl _, rfl⟩
  have hstate := History.run_state ops (History.start (SystemLogQueue.initial LogElement logged))
  change _ = (SystemLogQueue.initial LogElement logged).run ops at hstate
  rw [← hstate]
  generalize (History.start (SystemLogQueue.initial LogElement logged)).run ops = h
    at hfifo hfront hn hreq hfit ⊢
  have hlen : h.accepted.length = h.batches.flatten.length + h.state.queue.length := by
    rw [← hfifo, List.length_append]
  rw [Nat.mod_eq_of_lt (by omega)] at hfront hreq
  have hsum : h.state.queue_front_index + h.state.queue.length < UINT64_MODULUS := by omega
  have hle : h.state.requested_flush_up_to
      ≤ h.state.queue_front_index + h.state.queue.length := by omega
  refine ⟨hle, ?_, rfl, ?_⟩
  · simp only [SystemLogQueue.confirm, SystemLogQueue.pop, Nat.mod_eq_of_lt hsum]
    exact hle
  · simp only [SystemLogQueue.pop_wake_condition, SystemLogQueue.confirm, SystemLogQueue.pop,
      Nat.mod_eq_of_lt hsum]
    have hnot : ¬ (h.state.requested_flush_up_to
        > h.state.queue_front_index + h.state.queue.length) := by omega
    simp [hnot]

/-- A run with a forcing notifyFlush, an out-of-order confirm and two events. -/
theorem C20_no_request_beyond_enqueued_witness :
    ((SystemLogQueue.initial Nat 0).run
        [Op.add false 7, Op.notifyFlush true, Op.confirm 9, Op.add false 8]).requested_flush_up_to
      ≤ ((SystemLogQueue.initial Nat 0).run
          [Op.add false 7, Op.notifyFlush true, Op.confirm 9, Op.add false 8]).queue_front_index
        + ((SystemLogQueue.initial Nat 0).run
          [Op.add false 7, Op.notifyFlush true, Op.confirm 9, Op.add false 8]).queue.length :=
  (C20_no_request_beyond_enqueued 0
    [Op.add false 7, Op.notifyFlush true, Op.confirm 9, Op.add false 8] [] (by decide)).1

/-! ## The half-full step and the overflow diagnostic -/

/-- C17 (half-full step of add): on a queue that is not shut down, an add with
the guard flag off that finds room is accepted and appends the element. If it
finds exactly capacity/2 events buffered it sets requested_flush_up_to to
max(old requested_flush_up_to, front_index + buffer.length), with the length
taken before the append, the buffer becomes capacity/2 + 1 long and the "half
full" line is logged; if it finds any other length, requested_flush_up_to is
unchanged and nothing is logged. Nothing else changes. The sum
front_index + buffer.length is assumed to fit into uint64_t. -/
theorem C17_half_full_step {LogElement : Type} (q : SystemLogQueue LogElement)
    (e : LogElement) (hshut : q.is_shutdown = false)
    (hroom : q.queue.length < DBMS_SYSTEM_LOG_QUEUE_SIZE)
    (hfit : q.queue_front_index + q.queue.length < UINT64_MODULUS) :
    SystemLogQueue.add_accepted false q = true
      ∧ (q.add false e).state.requested_flush_up_to =
          (if q.queue.length = DBMS_SYSTEM_LOG_QUEUE_SIZE / 2 then
            max q.requested_flush_up_to (q.queue_front_index + q.queue.length)
           else q.requested_flush_up_to)
      ∧ (q.add false e).log =
          (if q.queue.length = DBMS_SYSTEM_LOG_QUEUE_SIZE / 2 then
            [Diagnostic.queue_is_half_full]
           else [])
      ∧ (q.add false e).state.queue = q.queue ++ [e]
      ∧ (q.add false e).state.queue.length =
          (if q.queue.length = DBMS_SYSTEM_LOG_QUEUE_SIZE / 2 then
            DBMS_SYSTEM_LOG_QUEUE_SIZE / 2 + 1
           else q.queue.length + 1)
      ∧ (q.add false e).state.queue_front_index = q.queue_front_index
      ∧ (q.add false e).state.flushed_up_to = q.flushed_up_to
      ∧ (q.add false e).state.is_force_prepare_tables = q.is_force_prepare_tables
      ∧ (q.add false e).state.is_shutdown = q.is_shutdown
      ∧ (q.add false e).state.logged_queue_full_at_index = q.logged_queue_full_at_index := by
  have hstate := SystemLogQueue.add_state_of_room q e hshut hroom
  rw [Nat.mod_eq_of_lt hfit] at hstate
  refine ⟨?_, ?_, SystemLogQueue.add_log_of_room q e hshut hroom, ?_, ?_, ?_, ?_, ?_, ?_, ?_⟩
  · simp [SystemLogQueue.add_accepted, hshut, hroom]
  · rw [hstate]
  · rw [hstate]
  · rw [hstate]
    simp only [List.length_append, List.length_singleton]
    split_ifs with hhalf
    · rw [hhalf]
    · rfl
  · rw [hstate]
  · rw [hstate]
  · rw [hstate]
  · rw [hstate]
  · rw [hstate]

/-- The initial queue after capacity/2 accepted adds. -/
theorem C17_half_full_step_witness :
    (((SystemLogQueue.initial Nat 0).run
        (adds (List.replicate (DBMS_SYSTEM_LOG_QUEUE_SIZE / 2) 0))).add false 1).log
      = (if ((SystemLogQueue.initial Nat 0).run
            (adds (List.replicate (DBMS_SYSTEM_LOG_QUEUE_SIZE / 2) 0))).queue.length
            = DBMS_SYSTEM_LOG_QUEUE_SIZE / 2 then
          [Diagnostic.queue_is_half_full]
         else []) :=
  (C17_half_full_step
    ((SystemLogQueue.initial Nat 0).run (adds (List.replicate (DBMS_SYSTEM_LOG_QUEUE_SIZE / 2) 0)))
    1
    (SystemLogQueue.run_adds_of_empty _ _ rfl rfl (by rw [List.length_replicate]; decide)).2.1
    (by
      rw [(SystemLogQueue.run_adds_of_empty (List.replicate (DBMS_SYSTEM_LOG_QUEUE_SIZE / 2) 0)
        (SystemLogQueue.initial Nat 0) rfl rfl (by rw [List.length_replicate]; decide)).1,
        List.length_replicate]
      decide)
    (by
      rw [(SystemLogQueue.run_adds_of_empty (List.replicate (DBMS_SYSTEM_LOG_QUEUE_SIZE / 2) 0)
        (SystemLogQueue.initial Nat 0) rfl rfl (by rw [List.length_replicate]; decide)).1,
        (SystemLogQueue.run_adds_of_empty (List.replicate (DBMS_SYSTEM_LOG_QUEUE_SIZE / 2) 0)
        (SystemLogQueue.initial Nat 0) rfl rfl (by rw [List.length_replicate]; decide)).2.2.1,
        List.length_replicate]
      decide)).2.2.1

/-! ## Re-entrancy guard -/

/-- With a logger that leaves the queue alone, `add_with_logger` is `add`. -/
theorem SystemLogQueue.add_with_logger_of_quiet {LogElement : Type}
    (logger : Bool → Diagnostic → SystemLogQueue LogElement → SystemLogQueue LogElement)
    (q : SystemLogQueue LogElement) (e : LogElement)
    (hquiet : ∀ d s, logger true d s = s) :
    q.add_with_logger logger false e = q.add false e := by
  unfold SystemLogQueue.add_with_logger SystemLogQueue.add
  simp only [Bool.false_eq_true, if_false, hquiet]
  split_ifs <;> rfl

/-- C16 (re-entrancy guard): an add entered while the calling thread's
recursive_add_call is already true returns at once and leaves the buffer, all
counters and flags and the guard flag itself unchanged, without logging. An
add entered with the flag false has it true at both logging calls (the result
depends on the logger only through what it does when it sees the flag true)
and leaves it false on every exit path. A logger that adds its line to this
same queue from inside add has no effect: the nested call is dropped. -/
theorem C16_reentrancy_guard {LogElement : Type}
    (logger nested : Bool → Diagnostic → SystemLogQueue LogElement → SystemLogQueue LogElement)
    (element_of : Diagnostic → LogElement)
    (q : SystemLogQueue LogElement) (e : LogElement) :
    q.add true e = { state := q, recursive_add_call := true, log := [] }
      ∧ q.add_with_logger logger true e = { state := q, recursive_add_call := true, log := [] }
      ∧ q.add_with_logger logger false e
          = q.add_with_logger (fun _ d s => logger true d s) false e
      ∧ (q.add_with_logger logger false e).recursive_add_call = false
      ∧ (q.add false e).recursive_add_call = false
      ∧ q.add_with_logger
            (fun flag d s => (s.add_with_logger nested flag (element_of d)).state) false e
          = q.add false e
      ∧ q.add_with_logger (fun _ _ s => s) false e = q.add false e := by
  refine ⟨?_, ?_, ?_, ?_, ?_, ?_, ?_⟩
  · simp [SystemLogQueue.add]
  · simp [SystemLogQueue.add_with_logger]
  · unfold SystemLogQueue.add_with_logger
    simp only [Bool.false_eq_true, if_false]
  · unfold SystemLogQueue.add_with_logger
    simp only [Bool.false_eq_true, if_false]
    split_ifs <;> rfl
  · unfold SystemLogQueue.add
    simp only [Bool.false_eq_true, if_false]
    split_ifs <;> rfl
  · apply SystemLogQueue.add_with_logger_of_quiet
    intro d s
    simp [SystemLogQueue.add_with_logger]
  · exact SystemLogQueue.add_with_logger_of_quiet _ q e (fun _ _ => rfl)

/-! ## Rate-limited overflow diagnostic -/

/-- What an `add` that finds the buffer full logs, on a queue that is not shut
down. -/
theorem SystemLogQueue.add_log_of_full {LogElement : Type} (q : SystemLogQueue LogElement)
    (e : LogElement) (hs : q.is_shutdown = false)
    (hfull : DBMS_SYSTEM_LOG_QUEUE_SIZE ≤ q.queue.length) :
    (q.add false e).log =
      if q.queue_front_index ≠ q.logged_queue_full_at_index then
        [Diagnostic.queue_is_full q.queue_front_index]
      else [] := by
  obtain ⟨buf, front, force, req, fl, logged, sd⟩ := q
  simp only at hs hfull
  subst hs
  have hhalf : ¬ buf.length = DBMS_SYSTEM_LOG_QUEUE_SIZE / 2 := by
    simp only [DBMS_SYSTEM_LOG_QUEUE_SIZE] at hfull ⊢
    omega
  unfold SystemLogQueue.add
  simp only [Bool.false_eq_true, if_false, beq_iff_eq, ge_iff_le, bne_iff_ne, ne_eq,
    if_neg hhalf, if_pos hfull]
  by_cases hlog : front = logged
  · simp [hlog]
  · simp [hlog]

/-- Any `add`: at most one "Queue is full" error; when one is logged the logged
index is the front index afterwards; when none is logged the logged index is
as before. -/
theorem SystemLogQueue.add_log_facts {LogElement : Type} (flag : Bool)
    (q : SystemLogQueue LogElement) (e : LogElement) :
    (q.add flag e).log.countP Diagnostic.is_queue_is_full ≤ 1
      ∧ ((q.add flag e).log.countP Diagnostic.is_queue_is_full = 1 →
          (q.add flag e).state.logged_queue_full_at_index = q.queue_front_index)
      ∧ ((q.add flag e).log.countP Diagnostic.is_queue_is_full = 0 →
          (q.add flag e).state.logged_queue_full_at_index = q.logged_queue_full_at_index)
      ∧ (q.logged_queue_full_at_index = q.queue_front_index →
          (q.add flag e).log.countP Diagnostic.is_queue_is_full = 0) := by
  obtain ⟨buf, front, force, req, fl, logged, sd⟩ := q
  unfold SystemLogQueue.add
  simp only [bne_iff_ne, ne_eq, ge_iff_le, beq_iff_eq]
  split_ifs with h1 h2 h3 h4 h5 h6 <;>
    simp_all [Diagnostic.is_queue_is_full, List.countP_cons, List.countP_nil] <;>
    exact fun h => (by assumption : ¬ front = logged) h.symm

/-- A call other than `pop` keeps the front index. -/
theorem SystemLogQueue.step_front_of_not_pop {LogElement : Type}
    (q : SystemLogQueue LogElement) (op : Op LogElement) (hop : op.is_pop = false) :
    (q.step op).queue_front_index = q.queue_front_index := by
  cases op with
  | add flag e => exact SystemLogQueue.add_front flag q e
  | pop output => simp [Op.is_pop] at hop
  | notifyFlush force => exact (SystemLogQueue.notifyFlush_frame q force).2
  | confirm x => rfl
  | shutdown => rfl

/-- One call: at most one "Queue is full" error; if one is logged, the logged
index is the old front index afterwards; if none, it is as before; and none is
logged when the logged index is the front index. -/
theorem SystemLogQueue.step_log_facts {LogElement : Type}
    (q : SystemLogQueue LogElement) (op : Op LogElement) :
    (q.step_log op).countP Diagnostic.is_queue_is_full ≤ 1
      ∧ ((q.step_log op).countP Diagnostic.is_queue_is_full = 1 →
          (q.step op).logged_queue_full_at_index = q.queue_front_index)
      ∧ ((q.step_log op).countP Diagnostic.is_queue_is_full = 0 →
          (q.step op).logged_queue_full_at_index = q.logged_queue_full_at_index)
      ∧ (q.logged_queue_full_at_index = q.queue_front_index →
          (q.step_log op).countP Diagnostic.is_queue_is_full = 0) := by
  cases op with
  | add flag e => exact SystemLogQueue.add_log_facts flag q e
  | pop output => simp [SystemLogQueue.step_log, SystemLogQueue.step, SystemLogQueue.pop]
  | notifyFlush force =>
    simp only [SystemLogQueue.step_log, SystemLogQueue.step, SystemLogQueue.notifyFlush]
    split_ifs <;> simp
  | confirm x => simp [SystemLogQueue.step_log, SystemLogQueue.step, SystemLogQueue.confirm]
  | shutdown => simp [SystemLogQueue.step_log, SystemLogQueue.step, SystemLogQueue.shutdown]

/-- With no `pop` and the logged index equal to the front index, no "Queue is
full" error is logged. -/
theorem SystemLogQueue.run_log_of_logged {LogElement : Type} (ops : List (Op LogElement))
    (q : SystemLogQueue LogElement) (hnopop : ∀ op ∈ ops, op.is_pop = false)
    (hlogged : q.logged_queue_full_at_index = q.queue_front_index) :
    (q.run_log ops).countP Diagnostic.is_queue_is_full = 0 := by
  induction ops generalizing q with
  | nil => rfl
  | cons op ops ih =>
    obtain ⟨-, -, hsame, hnone⟩ := SystemLogQueue.step_log_facts q op
    have hop := hnopop op (List.mem_cons_self _ _)
    have hnext : (q.step op).logged_queue_full_at_index = (q.step op).queue_front_index := by
      rw [hsame (hnone hlogged), SystemLogQueue.step_front_of_not_pop q op hop, hlogged]
    simp only [SystemLogQueue.run_log, List.countP_append]
    rw [hnone hlogged, ih (q.step op) (fun o ho => hnopop o (List.mem_cons_of_mem _ ho)) hnext]

/-- With no `pop`, at most one "Queue is full" error is logged. -/
theorem SystemLogQueue.run_log_at_most_one {LogElement : Type} (ops : List (Op LogElement))
    (q : SystemLogQueue LogElement) (hnopop : ∀ op ∈ ops, op.is_pop = false) :
    (q.run_log ops).countP Diagnostic.is_queue_is_full ≤ 1 := by
  induction ops generalizing q with
  | nil => exact Nat.zero_le _
  | cons op ops ih =>
    obtain ⟨hle, hone, -, -⟩ := SystemLogQueue.step_log_facts q op
    have hop := hnopop op (List.mem_cons_self _ _)
    have hrest : ∀ o ∈ ops, o.is_pop = false := fun o ho => hnopop o (List.mem_cons_of_mem _ ho)
    simp only [SystemLogQueue.run_log, List.countP_append]
    by_cases h1 : (q.step_log op).countP Diagnostic.is_queue_is_full = 1
    · have hnext : (q.step op).logged_queue_full_at_index = (q.step op).queue_front_index := by
        rw [hone h1, SystemLogQueue.step_front_of_not_pop q op hop]
      rw [h1, SystemLogQueue.run_log_of_logged ops (q.step op) hrest hnext]
    · have h0 : (q.step_log op).countP Diagnostic.is_queue_is_full = 0 := by omega
      rw [h0, Nat.zero_add]
      exact ih (q.step op) hrest

/-- With no `pop` and no "Queue is full" error logged, the front index and the
logged index stay as they are. -/
theorem SystemLogQueue.run_quiet {LogElement : Type} (ops : List (Op LogElement))
    (q : SystemLogQueue LogElement) (hnopop : ∀ op ∈ ops, op.is_pop = false)
    (hquiet : (q.run_log ops).countP Diagnostic.is_queue_is_full = 0) :
    (q.run ops).queue_front_index = q.queue_front_index
      ∧ (q.run ops).logged_queue_full_at_index = q.logged_queue_full_at_index := by
  induction ops generalizing q with
  | nil => exact ⟨rfl, rfl⟩
  | cons op ops ih =>
    obtain ⟨-, -, hsame, -⟩ := SystemLogQueue.step_log_facts q op
    have hop := hnopop op (List.mem_cons_self _ _)
    simp only [SystemLogQueue.run_log, List.countP_append, Nat.add_eq_zero] at hquiet
    have hrun : q.run (op :: ops) = (q.step op).run ops := rfl
    obtain ⟨hf, hl⟩ := ih (q.step op) (fun o ho => hnopop o (List.mem_cons_of_mem _ ho)) hquiet.2
    rw [hrun, hf, hl, SystemLogQueue.step_front_of_not_pop q op hop, hsame hquiet.1]
    exact ⟨rfl, rfl⟩

/-- The calls of `adds` are not pops. -/
theorem adds_not_pop {LogElement : Type} (es : List LogElement) :
    ∀ op ∈ adds es, op.is_pop = false := by
  intro op hop
  simp only [adds, List.mem_map] at hop
  obtain ⟨e, -, rfl⟩ := hop
  rfl

/-- Consecutive adds that all find room log no "Queue is full" error. -/
theorem SystemLogQueue.run_log_adds {LogElement : Type} (es : List LogElement)
    (q : SystemLogQueue LogElement) (hs : q.is_shutdown = false)
    (hroom : q.queue.length + es.length ≤ DBMS_SYSTEM_LOG_QUEUE_SIZE) :
    (q.run_log (adds es)).countP Diagnostic.is_queue_is_full = 0 := by
  induction es generalizing q with
  | nil => rfl
  | cons e es ih =>
    simp only [List.length_cons] at hroom
    have hlt : q.queue.length < DBMS_SYSTEM_LOG_QUEUE_SIZE := by omega
    have hstate := SystemLogQueue.add_state_of_room q e hs hlt
    have hlog := SystemLogQueue.add_log_of_room q e hs hlt
    have hnext := ih (q.add false e).state (by rw [hstate]; exact hs)
      (by rw [hstate]; simp only [List.length_append, List.length_singleton]; omega)
    simp only [adds, List.map_cons, SystemLogQueue.run_log, List.countP_append,
      SystemLogQueue.step_log, SystemLogQueue.step] at hnext ⊢
    rw [hlog, hnext]
    split_ifs <;> rfl

/-- After a dropped add and a pop on a full queue that is not shut down, as
many adds as the capacity are accepted without a "Queue is full" error and
fill the buffer again. -/
theorem SystemLogQueue.refill_after_pop {LogElement : Type} (q : SystemLogQueue LogElement)
    (e : LogElement) (output es : List LogElement) (hs : q.is_shutdown = false)
    (hfull : DBMS_SYSTEM_LOG_QUEUE_SIZE ≤ q.queue.length)
    (hlen : es.length = DBMS_SYSTEM_LOG_QUEUE_SIZE) :
    (((q.add false e).state.pop output).state.run_log (adds es)).countP
        Diagnostic.is_queue_is_full = 0
      ∧ (((q.add false e).state.pop output).state.run (adds es)).is_shutdown = false
      ∧ DBMS_SYSTEM_LOG_QUEUE_SIZE
          ≤ (((q.add false e).state.pop output).state.run (adds es)).queue.length := by
  have hempty : ((q.add false e).state.pop output).state.queue = [] := by
    simp [SystemLogQueue.pop]
  have hs2 : ((q.add false e).state.pop output).state.is_shutdown = false := by
    rw [SystemLogQueue.add_state_of_full q e hs hfull]
    exact hs
  obtain ⟨hq, hs3, -⟩ := SystemLogQueue.run_adds_of_empty es _ hempty hs2 (by omega)
  refine ⟨SystemLogQueue.run_log_adds es _ hs2 (by rw [hempty]; simp; omega), hs3, ?_⟩
  rw [hq, hlen]

/-- C18 (rate-limited overflow diagnostic): on a queue that is not shut down,
an add that finds the buffer at capacity logs the "Queue is full" error if and
only if front_index differs from last_logged_full_at, and leaves
last_logged_full_at equal to front_index. So in any run of calls without a
pop, from any state, at most one such error is logged; and after a pop that
removed at least one element, the next add that finds the buffer full, with no
pop and no such error in between, logs the error again. The sum
front_index + buffer.length is assumed to fit into uint64_t. -/
theorem C18_rate_limited_overflow_diagnostic {LogElement : Type}
    (q from_any : SystemLogQueue LogElement) (e later : LogElement)
    (ops between : List (Op LogElement)) (output : List LogElement)
    (hshut : q.is_shutdown = false)
    (hfull : DBMS_SYSTEM_LOG_QUEUE_SIZE ≤ q.queue.length)
    (hfit : q.queue_front_index + q.queue.length < UINT64_MODULUS)
    (hops : ∀ op ∈ ops, op.is_pop = false)
    (hbetween : ∀ op ∈ between, op.is_pop = false)
    (hquiet : (((q.add false e).state.pop output).state.run_log between).countP
      Diagnostic.is_queue_is_full = 0)
    (hshut2 : (((q.add false e).state.pop output).state.run between).is_shutdown = false)
    (hfull2 : DBMS_SYSTEM_LOG_QUEUE_SIZE
      ≤ (((q.add false e).state.pop output).state.run between).queue.length) :
    (q.add false e).log =
        (if q.queue_front_index ≠ q.logged_queue_full_at_index then
          [Diagnostic.queue_is_full q.queue_front_index]
         else [])
      ∧ (q.add false e).state.logged_queue_full_at_index = q.queue_front_index
      ∧ (q.add false e).state.queue = q.queue
      ∧ (from_any.run_log ops).countP Diagnostic.is_queue_is_full ≤ 1
      ∧ ((q.add false e).state.pop output).output = q.queue
      ∧ ((((q.add false e).state.pop output).state.run between).add false later).log
          = [Diagnostic.queue_is_full
              (((q.add false e).state.pop output).state.run between).queue_front_index] := by
  have hstate := SystemLogQueue.add_state_of_full q e hshut hfull
  refine ⟨SystemLogQueue.add_log_of_full q e hshut hfull, by rw [hstate], by rw [hstate],
    SystemLogQueue.run_log_at_most_one ops from_any hops, by rw [hstate]; rfl, ?_⟩
  obtain ⟨hfront, hlogged⟩ := SystemLogQueue.run_quiet between _ hbetween hquiet
  rw [SystemLogQueue.add_log_of_full _ later hshut2 hfull2, hfront, hlogged, hstate]
  simp only [SystemLogQueue.pop, Nat.mod_eq_of_lt hfit]
  have hpos : 0 < q.queue.length := by
    simp only [DBMS_SYSTEM_LOG_QUEUE_SIZE] at hfull
    omega
  rw [if_pos (by omega)]

/-- The initial queue filled to capacity, popped, and filled again. -/
theorem C18_rate_limited_overflow_diagnostic_witness :
    ((((((SystemLogQueue.initial Nat 0).run
          (adds (List.replicate DBMS_SYSTEM_LOG_QUEUE_SIZE 0))).add false 1).state.pop
          []).state.run (adds (List.replicate DBMS_SYSTEM_LOG_QUEUE_SIZE 0))).add false 2).log
      = [Diagnostic.queue_is_full
          (((((SystemLogQueue.initial Nat 0).run
            (adds (List.replicate DBMS_SYSTEM_LOG_QUEUE_SIZE 0))).add false 1).state.pop
            []).state.run (adds (List.replicate DBMS_SYSTEM_LOG_QUEUE_SIZE 0))).queue_front_index] :=
  (C18_rate_limited_overflow_diagnostic
    ((SystemLogQueue.initial Nat 0).run (adds (List.replicate DBMS_SYSTEM_LOG_QUEUE_SIZE 0)))
    (SystemLogQueue.initial Nat 0) 1 2 [Op.add false 3, Op.notifyFlush false]
    (adds (List.replicate DBMS_SYSTEM_LOG_QUEUE_SIZE 0)) []
    (SystemLogQueue.run_adds_of_empty _ _ rfl rfl (by rw [List.length_replicate])).2.1
    (by
      rw [(SystemLogQueue.run_adds_of_empty (List.replicate DBMS_SYSTEM_LOG_QUEUE_SIZE 0)
        (SystemLogQueue.initial Nat 0) rfl rfl (by rw [List.length_replicate])).1,
        List.length_replicate])
    (by
      rw [(SystemLogQueue.run_adds_of_empty (List.replicate DBMS_SYSTEM_LOG_QUEUE_SIZE 0)
        (SystemLogQueue.initial Nat 0) rfl rfl (by rw [List.length_replicate])).1,
        (SystemLogQueue.run_adds_of_empty (List.replicate DBMS_SYSTEM_LOG_QUEUE_SIZE 0)
        (SystemLogQueue.initial Nat 0) rfl rfl (by rw [List.length_replicate])).2.2.1,
        List.length_replicate]
      decide)
    (by decide)
    (adds_not_pop _)
    (SystemLogQueue.refill_after_pop _ 1 [] _
      (SystemLogQueue.run_adds_of_empty _ _ rfl rfl (by rw [List.length_replicate])).2.1
      (by
        rw [(SystemLogQueue.run_adds_of_empty (List.replicate DBMS_SYSTEM_LOG_QUEUE_SIZE 0)
          (SystemLogQueue.initial Nat 0) rfl rfl (by rw [List.length_replicate])).1,
          List.length_replicate])
      (List.length_replicate _ _)).1
    (SystemLogQueue.refill_after_pop _ 1 [] _
      (SystemLogQueue.run_adds_of_empty _ _ rfl rfl (by rw [List.length_replicate])).2.1
      (by
        rw [(SystemLogQueue.run_adds_of_empty (List.replicate DBMS_SYSTEM_LOG_QUEUE_SIZE 0)
          (SystemLogQueue.initial Nat 0) rfl rfl (by rw [List.length_replicate])).1,
          List.length_replicate])
      (List.length_replicate _ _)).2.1
    (SystemLogQueue.refill_after_pop _ 1 [] _
      (SystemLogQueue.run_adds_of_empty _ _ rfl rfl (by rw [List.length_replicate])).2.1
      (by
        rw [(SystemLogQueue.run_adds_of_empty (List.replicate DBMS_SYSTEM_LOG_QUEUE_SIZE 0)
          (SystemLogQueue.initial Nat 0) rfl rfl (by rw [List.length_replicate])).1,
          List.length_replicate])
      (List.length_replicate _ _)).2.2).2.2.2.2.2

/-! ## Locking discipline -/

/-- C19 (single-mutex discipline), at the call that breaks it: shutdown()
assigns is_shutdown without holding the mutex, while every assignment made
along every path of add, pop, notifyFlush and confirm (and waitFlush, which
assigns nothing) is made with the mutex held. -/
theorem C19_shutdown_writes_without_mutex :
    writes_under_mutex false shutdown_path = false
      ∧ shutdown_path.head? = some (Action.write Member.is_shutdown)
      ∧ (∀ path ∈ add_paths ++ notifyFlush_paths ++ [pop_path, confirm_path, waitFlush_path],
          writes_under_mutex false path = true) := by
  decide

/-! ## DataTypeFixedString (src/DataTypes/DataTypeFixedString.h) -/

/-- C21 (FixedString size validation): constructing DataTypeFixedString(n)
fails with ARGUMENT_OUT_OF_BOUND if and only if n = 0 or
n > MAX_FIXEDSTRING_SIZE (0xFFFFFF = 16777215), and it fails with no other
code; it succeeds exactly for 1 <= n <= 16777215, and then both getN() and
getSizeOfValueInMemory() return n. -/
theorem C21_fixed_string_size_validation (n : Nat) :
    MAX_FIXEDSTRING_SIZE = 16777215
      ∧ ((∃ ex, DataTypeFixedString.DataTypeFixedString n = Except.error ex
            ∧ ex.code = ErrorCode.ARGUMENT_OUT_OF_BOUND)
          ↔ (n = 0 ∨ n > MAX_FIXEDSTRING_SIZE))
      ∧ (∀ ex, DataTypeFixedString.DataTypeFixedString n = Except.error ex →
            ex.code = ErrorCode.ARGUMENT_OUT_OF_BOUND)
      ∧ ((∃ type, DataTypeFixedString.DataTypeFixedString n = Except.ok type
            ∧ type.getN = n ∧ type.getSizeOfValueInMemory = n)
          ↔ (1 ≤ n ∧ n ≤ 16777215))
      ∧ (∀ type, DataTypeFixedString.DataTypeFixedString n = Except.ok type →
            type.getN = n ∧ type.getSizeOfValueInMemory = n) := by
  have hmax : MAX_FIXEDSTRING_SIZE = 16777215 := rfl
  unfold DataTypeFixedString.DataTypeFixedString
  simp only [beq_iff_eq, hmax]
  refine ⟨trivial, ?_, ?_, ?_, ?_⟩
  · by_cases h0 : n = 0
    · simp [h0]
    · by_cases hbig : n > 16777215
      · simp [h0, hbig]
      · simp [h0, hbig]
  · intro ex hex
    split_ifs at hex <;> simp at hex
    · rw [← hex]
    · rw [← hex]
  · by_cases h0 : n = 0
    · simp [h0]
    · by_cases hbig : n > 16777215
      · simp [h0, hbig]
      · simp [h0, hbig, DataTypeFixedString.getN, DataTypeFixedString.getSizeOfValueInMemory]
        omega
  · intro type htype
    split_ifs at htype
    simp at htype
    rw [← htype]
    exact ⟨rfl, rfl⟩

end DB
